import Mathlib

/-!
# Dependency bootstrap of the API server (`backend/src/apiserver/client_manager.go`)

A shallow embedding of `client_manager.go`.  The Go code talks to a relational
database, an object store and two orchestration clients, and ends the process
with `glog.Fatalf` when a step fails.  The embedding makes this explicit:

* every external effect is recorded, in order, in `World.trace`;
* the answers of the outside world are supplied by an `Env` of oracles, each a
  function of the effects seen so far, so a theorem that quantifies over `Env`
  covers every combination of outcomes;
* a computation either returns a value or ends the process (`Outcome.fatal`);
  after `glog.Fatalf` nothing else runs, deferred calls included, because
  `glog.Fatalf` leaves through `os.Exit`.
-/

namespace Apiserver

/-! ## Values, effects and the execution model -/

/-- A non-nil Go `error`; the nil error is `Option.none`. -/
abbrev GoError := String

/-- An argument of a `glog` format call. -/
inductive Arg where
  | str (s : String)
  | err (e : Option GoError)
  deriving DecidableEq, Repr

/-- External effects, each recorded with the answer the outside world gave. -/
inductive Event where
  | Infof (format : String) (args : List Arg)
  | Fatalf (format : String) (args : List Arg)
  | getStringConfig (name : String) (value : Option String)
  | getDurationConfig (name : String) (value : Option Nat)
  | sqlOpen (driverName dsn : String) (err : Option GoError)
  | dbExec (receiver : Option String) (query : String) (err : Option GoError)
  | dbClose (receiver : Option String)
  | Sleep (delay : Nat)
  | gormOpen (driverName arg : String) (err : Option GoError)
  | AutoMigrate (models : List String) (err : Option GoError)
  | AddForeignKey (model field dest onDelete onUpdate : String) (err : Option GoError)
  | NewDB
  | NewRealTime
  | NewUUIDGenerator
  | NewExperimentStore
  | NewPipelineStore
  | NewJobStore
  | NewRunStore
  | NewResourceReferenceStore
  | CreateMinioClient (host port accessKey secretKey : String) (timeout : Nat) (ok : Bool)
  | MakeBucket (bucketName location : String) (err : Option GoError)
  | BucketExists (bucketName : String) (found : Bool) (err : Option GoError)
  | NewMinioObjectStore (bucketName : String)
  | CreateWorkflowClient (ns : String) (timeout : Nat) (ok : Bool)
  | CreateScheduledWorkflowClient (ns : String) (timeout : Nat) (ok : Bool)
  deriving DecidableEq, Repr

/-- The state outside the process: the effects so far (oldest first) and the
bucket names held by the object store. -/
structure World where
  trace : List Event
  buckets : List String
  deriving DecidableEq, Repr

/-- How a computation ends: it returns, or `glog.Fatalf` ended the process. -/
inductive Outcome (α : Type) where
  | ret (a : α)
  | fatal (format : String) (args : List Arg)
  deriving DecidableEq, Repr

/-- A computation of the bootstrap: it reads and extends the world. -/
def Boot (α : Type) : Type := World → Outcome α × World

/-- Return a value without any effect. -/
def Boot.pure {α : Type} (a : α) : Boot α := fun w => (Outcome.ret a, w)

/-- Sequencing: a fatal first part ends the run, the rest is never executed. -/
def Boot.bind {α β : Type} (m : Boot α) (f : α → Boot β) : Boot β := fun w =>
  match m w with
  | (Outcome.ret a, w1) => f a w1
  | (Outcome.fatal format args, w1) => (Outcome.fatal format args, w1)

instance : Monad Boot where
  pure := Boot.pure
  bind := Boot.bind

/-- Record one external effect. -/
def emit (e : Event) : Boot Unit := fun w =>
  (Outcome.ret (), { w with trace := w.trace ++ [e] })

/-- The effects seen so far. -/
def history : Boot (List Event) := fun w => (Outcome.ret w.trace, w)

/-- The call `glog.Infof(format, args...)`. -/
def Infof (format : String) (args : List Arg) : Boot Unit :=
  emit (Event.Infof format args)

/-- The call `glog.Fatalf(format, args...)`: logs, then ends the process. -/
def Fatalf {α : Type} (format : String) (args : List Arg) : Boot α := fun w =>
  (Outcome.fatal format args, { w with trace := w.trace ++ [Event.Fatalf format args] })

/-- Whether a run returned. -/
def Outcome.returned {α : Type} : Outcome α → Bool
  | Outcome.ret _ => true
  | Outcome.fatal _ _ => false

/-! ## The object store client -/

/-- The object store server behind `*minio.Client`: how it answers `MakeBucket`
and `BucketExists` on a store holding the given bucket names. -/
structure MinioClient where
  makeBucket : String → String → List String → Option GoError × List String
  bucketExists : String → List String → (Bool × Option GoError) × List String

/-- The call `minioClient.MakeBucket(bucketName, location)`. -/
def MinioClient.MakeBucket (c : MinioClient) (bucketName location : String) :
    Boot (Option GoError) := fun w =>
  let r := c.makeBucket bucketName location w.buckets
  (Outcome.ret r.1,
    { trace := w.trace ++ [Event.MakeBucket bucketName location r.1], buckets := r.2 })

/-- The call `minioClient.BucketExists(bucketName)`. -/
def MinioClient.BucketExists (c : MinioClient) (bucketName : String) :
    Boot (Bool × Option GoError) := fun w =>
  let r := c.bucketExists bucketName w.buckets
  (Outcome.ret r.1,
    { trace := w.trace ++ [Event.BucketExists bucketName r.1.1 r.1.2], buckets := r.2 })

/-- Go `createMinioBucket` (lines 224-237).  The inner `exists, err :=` declares
a new `err`, so the one printed by `Fatalf` is the one of `BucketExists`. -/
def createMinioBucket (minioClient : MinioClient) (bucketName : String) : Boot Unit := do
  let err ← minioClient.MakeBucket bucketName ""
  if err ≠ none then
    let (found, err) ← minioClient.BucketExists bucketName
    if err = none ∧ found = true then
      Infof "We already own %s\n" [Arg.str bucketName]
    else
      Fatalf "Failed to create Minio bucket. Error: %v" [Arg.err err]
  Infof "Successfully created bucket %s\n" [Arg.str bucketName]

/-- An object store that is a set of bucket names: `MakeBucket` adds the name
and fails when it is already present, `BucketExists` reports membership. -/
def setStore : MinioClient where
  makeBucket := fun bucketName _ bs =>
    if bucketName ∈ bs then (some "bucket already exists", bs) else (none, bucketName :: bs)
  bucketExists := fun bucketName bs => ((decide (bucketName ∈ bs), none), bs)

/-! ## Configuration and helpers defined outside `client_manager.go` -/

/-- Modelled from the spec: the retry policy of the back-off library, which is
outside `client_manager.go`: "{base delay, multiplier, max elapsed time}" (spec,
section 3), with "exponentially increasing delay" (spec, section 4.1), that is
a multiplier of at least one.  The multiplier is a fraction; durations are
whole time units. -/
structure ExponentialBackOff where
  InitialInterval : Nat
  MultiplierNum : Nat
  MultiplierDen : Nat
  MaxElapsedTime : Nat
  den_pos : 0 < MultiplierDen
  increasing : MultiplierDen ≤ MultiplierNum

/-- The answers of the outside world.  Each oracle sees the effects so far, so
the answer to a call may differ from one attempt to the next.  `backOff` is the
policy that `backoff.NewExponentialBackOff()` returns. -/
structure Env where
  stringConfig : String → Option String
  durationConfig : String → Option Nat
  sqlOpen : List Event → Option GoError
  dbExec : List Event → Option GoError
  backOff : ExponentialBackOff
  retryBudget : Nat → List Event → Nat
  gormOpen : List Event → Option GoError
  AutoMigrate : List Event → Option GoError
  AddForeignKey : List Event → Option GoError
  minioClient : List Event → Option MinioClient
  workflowClient : List Event → Bool
  scheduledWorkflowClient : List Event → Bool

def minioServiceHost : String := "MINIO_SERVICE_SERVICE_HOST"
def minioServicePort : String := "MINIO_SERVICE_SERVICE_PORT"
def mysqlServiceHost : String := "MYSQL_SERVICE_HOST"
def mysqlServicePort : String := "MYSQL_SERVICE_PORT"
def podNamespace : String := "POD_NAMESPACE"
def dbName : String := "mlpipeline"
def initConnectionTimeout : String := "InitConnectionTimeout"

/-- Modelled from the spec: `getStringConfig` is defined outside
`client_manager.go`; a missing value is "a fatal configuration error, not
retried" (spec, section 6). -/
def getStringConfig (env : Env) (name : String) : Boot String := do
  emit (Event.getStringConfig name (env.stringConfig name))
  match env.stringConfig name with
  | some v => pure v
  | none => Fatalf "Please specify flag %s" [Arg.str name]

/-- Modelled from the spec: `getDurationConfig` is defined outside
`client_manager.go`; a missing value is "a fatal configuration error, not
retried" (spec, section 6). -/
def getDurationConfig (env : Env) (name : String) : Boot Nat := do
  emit (Event.getDurationConfig name (env.durationConfig name))
  match env.durationConfig name with
  | some v => pure v
  | none => Fatalf "Please specify flag %s" [Arg.str name]

/-- Modelled from the spec: `util.TerminateIfError` is defined outside
`client_manager.go`; a failure handed to it "is fatal - the process must not
proceed" (spec, section 4.2), a nil error lets the caller continue. -/
def TerminateIfError (err : Option GoError) : Boot Unit :=
  match err with
  | none => pure ()
  | some e => Fatalf "%v" [Arg.err (some e)]

/-- The value built by `client.CreateMySQLConfig`. -/
structure MySQLConfig where
  User : String
  Host : String
  Port : String
  DBName : String
  deriving DecidableEq, Repr

/-- Modelled from the spec: `client.CreateMySQLConfig` is defined outside
`client_manager.go`; it collects the connection target (user, host, port,
database name). -/
def CreateMySQLConfig (user host port dbName : String) : MySQLConfig :=
  { User := user, Host := host, Port := port, DBName := dbName }

/-- Modelled from the spec: `FormatDSN` of the value built by
`client.CreateMySQLConfig` is defined outside `client_manager.go`; the data
source name has the format given by the comment above `initMysql`:
`root@tcp(ip:port)/dbname?charset=utf8&loc=Local&parseTime=True`. -/
def MySQLConfig.FormatDSN (c : MySQLConfig) : String :=
  c.User ++ "@tcp(" ++ c.Host ++ ":" ++ c.Port ++ ")/" ++ c.DBName ++
    "?charset=utf8&loc=Local&parseTime=True"

/-! ## The back-off retrier, at its boundary -/

/-- The call `backoff.NewExponentialBackOff()`: the default policy. -/
def NewExponentialBackOff (env : Env) : ExponentialBackOff := env.backOff

/-- Modelled from the spec: the delay that follows a delay of `interval`,
"exponentially increasing delay between attempts", "multiplier-based growth",
no jitter (spec, section 4.1). -/
def ExponentialBackOff.next (b : ExponentialBackOff) (interval : Nat) : Nat :=
  interval * b.MultiplierNum / b.MultiplierDen

/-- Modelled from the spec: the Backoff Retrier, whose code (`backoff.Retry`)
is outside `client_manager.go`: "repeatedly invoke the operation with
exponentially increasing delay between attempts until it succeeds or the
elapsed time budget is exhausted.  Returns success with the operation's result,
or a timeout error carrying the last observed failure" (spec, section 4.1).
`budget` is the number of delays the elapsed time budget still admits,
`interval` the next delay, `v` the variables the operation closure assigns. -/
def RetryLoop {V : Type} (b : ExponentialBackOff) (operation : V → Boot (V × Option GoError)) :
    Nat → Nat → V → Boot (V × Option GoError)
  | 0, _, v => operation v
  | budget + 1, interval, v => do
    let (v1, err) ← operation v
    if err = none then
      pure (v1, none)
    else
      emit (Event.Sleep interval)
      RetryLoop b operation budget (b.next interval) v1

/-- The call `backoff.Retry(operation, b)`.  The elapsed time is measured on
the wall clock, which is external, so the number of delays that fit in
`b.MaxElapsedTime` is an answer of the environment; like every external call,
the retrier is taken to return. -/
def Retry {V : Type} (env : Env) (operation : V → Boot (V × Option GoError))
    (b : ExponentialBackOff) (v : V) : Boot (V × Option GoError) := do
  let h ← history
  RetryLoop b operation (env.retryBudget b.MaxElapsedTime h) b.InitialInterval v

/-- A `defer d` followed by the rest of the function body: `d` runs when the
function returns.  A body ended by `glog.Fatalf` leaves through `os.Exit`, which
runs no deferred call. -/
def withDefer {α : Type} (d : Boot Unit) (body : Boot α) : Boot α := do
  let a ← body
  d
  pure a

/-! ## The relational database -/

/-- The call `sql.Open(driverName, dsn)`: a handle (named by its data source)
and a nil error, or a nil handle and an error. -/
def sqlOpen (env : Env) (driverName dsn : String) : Boot (Option String × Option GoError) := do
  let h ← history
  let err := env.sqlOpen h
  emit (Event.sqlOpen driverName dsn err)
  if err = none then pure (some dsn, none) else pure (none, err)

/-- The call `db.Exec(query)` on the value of the Go variable `db`.  The event
records the receiver; a nil receiver would be a nil dereference in Go. -/
def dbExec (env : Env) (db : Option String) (query : String) : Boot (Option GoError) := do
  let h ← history
  let err := env.dbExec h
  emit (Event.dbExec db query err)
  pure err

/-- The call `db.Close()` on the value of the Go variable `db`. -/
def dbClose (db : Option String) : Boot Unit :=
  emit (Event.dbClose db)

/-- Go `initMysql` (lines 169-207). -/
def initMysql (env : Env) (driverName : String) (initConnectionTimeout : Nat) : Boot String := do
  let host ← getStringConfig env mysqlServiceHost
  let port ← getStringConfig env mysqlServicePort
  let mysqlConfig := CreateMySQLConfig "root" host port ""
  let operation : Option String → Boot (Option String × Option GoError) := fun _ =>
    sqlOpen env driverName mysqlConfig.FormatDSN
  let b := NewExponentialBackOff env
  let b := { b with MaxElapsedTime := initConnectionTimeout }
  let (db, err) ← Retry env operation b none
  withDefer (dbClose db) do
    TerminateIfError err
    let operation : Unit → Boot (Unit × Option GoError) := fun _ => do
      let err ← dbExec env db ("CREATE DATABASE IF NOT EXISTS " ++ dbName)
      pure ((), err)
    let b := NewExponentialBackOff env
    let b := { b with MaxElapsedTime := initConnectionTimeout }
    let (_, err) ← Retry env operation b ()
    TerminateIfError err
    let mysqlConfig := { mysqlConfig with DBName := dbName }
    pure mysqlConfig.FormatDSN

/-- The handle `*storage.DB`, bound to the data source it was opened on. -/
structure DB where
  arg : String
  deriving DecidableEq, Repr

/-- The call `gorm.Open(driverName, arg)`. -/
def gormOpen (env : Env) (driverName arg : String) : Boot (Option GoError) := do
  let h ← history
  let err := env.gormOpen h
  emit (Event.gormOpen driverName arg err)
  pure err

/-- The call `db.AutoMigrate(models...)`; the result is `response.Error`. -/
def AutoMigrate (env : Env) (models : List String) : Boot (Option GoError) := do
  let h ← history
  let err := env.AutoMigrate h
  emit (Event.AutoMigrate models err)
  pure err

/-- The call `db.Model(model).AddForeignKey(field, dest, onDelete, onUpdate)`;
the result is `response.Error`. -/
def AddForeignKey (env : Env) (model field dest onDelete onUpdate : String) :
    Boot (Option GoError) := do
  let h ← history
  let err := env.AddForeignKey h
  emit (Event.AddForeignKey model field dest onDelete onUpdate err)
  pure err

/-- The call `storage.NewDB(db.DB(), storage.NewMySQLDialect())`. -/
def NewDB (arg : String) : Boot DB := do
  emit Event.NewDB
  pure { arg := arg }

/-- The six entities handed to `AutoMigrate` (lines 148-154). -/
def models : List String :=
  ["Experiment", "Job", "Pipeline", "ResourceReference", "RunDetail", "RunMetric"]

/-- Go `initDBClient` (lines 131-165). -/
def initDBClient (env : Env) (initConnectionTimeout : Nat) : Boot DB := do
  let driverName ← getStringConfig env "DBConfig.DriverName"
  let arg ←
    if driverName = "mysql" then
      initMysql env driverName initConnectionTimeout
    else
      Fatalf "Driver %v is not supported" [Arg.str driverName]
  let err ← gormOpen env driverName arg
  TerminateIfError err
  let response ← AutoMigrate env models
  if response ≠ none then
    Fatalf "Failed to initialize the databases." []
  let response ← AddForeignKey env "RunMetric" "RunUUID" "run_details(UUID)" "CASCADE" "CASCADE"
  if response ≠ none then
    Fatalf "Failed to create a foreign key for RunID in run_metrics table. Error: %s"
      [Arg.err response]
  NewDB arg

/-! ## The object store -/

/-- The handle `storage.ObjectStoreInterface` built by `storage.NewMinioObjectStore`. -/
structure ObjectStore where
  bucketName : String
  deriving DecidableEq, Repr

/-- Modelled from the spec: `client.CreateMinioClientOrFatal` is defined outside
`client_manager.go`; it returns a client or ends the process (the "OrFatal"
factories are "fatal on failure", spec, section 4.5). -/
def CreateMinioClientOrFatal (env : Env) (host port accessKey secretKey : String)
    (timeout : Nat) : Boot MinioClient := do
  let h ← history
  match env.minioClient h with
  | some c =>
    emit (Event.CreateMinioClient host port accessKey secretKey timeout true)
    pure c
  | none =>
    emit (Event.CreateMinioClient host port accessKey secretKey timeout false)
    Fatalf "Failed to create Minio client. Error: %v" []

/-- The call `storage.NewMinioObjectStore(client, bucketName)`. -/
def NewMinioObjectStore (bucketName : String) : Boot ObjectStore := do
  emit (Event.NewMinioObjectStore bucketName)
  pure { bucketName := bucketName }

/-- Go `initMinioClient` (lines 209-222). -/
def initMinioClient (env : Env) (initConnectionTimeout : Nat) : Boot ObjectStore := do
  let minioServiceHost ← getStringConfig env minioServiceHost
  let minioServicePort ← getStringConfig env minioServicePort
  let accessKey ← getStringConfig env "ObjectStoreConfig.AccessKey"
  let secretKey ← getStringConfig env "ObjectStoreConfig.SecretAccessKey"
  let bucketName ← getStringConfig env "ObjectStoreConfig.BucketName"
  let minioClient ← CreateMinioClientOrFatal env minioServiceHost minioServicePort accessKey
    secretKey initConnectionTimeout
  createMinioBucket minioClient bucketName
  NewMinioObjectStore bucketName

/-! ## The composition root -/

structure RealTime where
  deriving DecidableEq, Repr

structure UUIDGenerator where
  deriving DecidableEq, Repr

structure ExperimentStore where
  db : DB
  deriving DecidableEq, Repr

structure PipelineStore where
  db : DB
  deriving DecidableEq, Repr

structure JobStore where
  db : DB
  deriving DecidableEq, Repr

structure RunStore where
  db : DB
  deriving DecidableEq, Repr

structure ResourceReferenceStore where
  db : DB
  deriving DecidableEq, Repr

structure WorkflowClient where
  ns : String
  deriving DecidableEq, Repr

structure ScheduledWorkflowClient where
  ns : String
  deriving DecidableEq, Repr

/-- Go `ClientManager` (lines 46-58); every field is a pointer or an interface
value, nil in the zero value. -/
structure ClientManager where
  db : Option DB
  experimentStore : Option ExperimentStore
  pipelineStore : Option PipelineStore
  jobStore : Option JobStore
  runStore : Option RunStore
  resourceReferenceStore : Option ResourceReferenceStore
  objectStore : Option ObjectStore
  wfClient : Option WorkflowClient
  swfClient : Option ScheduledWorkflowClient
  time : Option RealTime
  uuid : Option UUIDGenerator
  deriving DecidableEq, Repr

/-- The zero value of `ClientManager`. -/
def ClientManager.zero : ClientManager :=
  { db := none, experimentStore := none, pipelineStore := none, jobStore := none,
    runStore := none, resourceReferenceStore := none, objectStore := none,
    wfClient := none, swfClient := none, time := none, uuid := none }

def NewRealTime : Boot RealTime := do
  emit Event.NewRealTime
  pure {}

def NewUUIDGenerator : Boot UUIDGenerator := do
  emit Event.NewUUIDGenerator
  pure {}

def NewExperimentStore (db : DB) (_ : Option RealTime) (_ : Option UUIDGenerator) :
    Boot ExperimentStore := do
  emit Event.NewExperimentStore
  pure { db := db }

def NewPipelineStore (db : DB) (_ : Option RealTime) (_ : Option UUIDGenerator) :
    Boot PipelineStore := do
  emit Event.NewPipelineStore
  pure { db := db }

def NewJobStore (db : DB) (_ : Option RealTime) : Boot JobStore := do
  emit Event.NewJobStore
  pure { db := db }

def NewRunStore (db : DB) (_ : Option RealTime) : Boot RunStore := do
  emit Event.NewRunStore
  pure { db := db }

def NewResourceReferenceStore (db : DB) : Boot ResourceReferenceStore := do
  emit Event.NewResourceReferenceStore
  pure { db := db }

/-- Modelled from the spec: `client.CreateWorkflowClientOrFatal` is defined
outside `client_manager.go`; the client "creation itself [is] fatal on failure"
(spec, section 4.5). -/
def CreateWorkflowClientOrFatal (env : Env) (ns : String) (timeout : Nat) :
    Boot WorkflowClient := do
  let h ← history
  emit (Event.CreateWorkflowClient ns timeout (env.workflowClient h))
  if env.workflowClient h = true then
    pure { ns := ns }
  else
    Fatalf "Failed to create workflow client. Error: %v" []

/-- Modelled from the spec: `client.CreateScheduledWorkflowClientOrFatal` is
defined outside `client_manager.go`; the client "creation itself [is] fatal on
failure" (spec, section 4.5). -/
def CreateScheduledWorkflowClientOrFatal (env : Env) (ns : String) (timeout : Nat) :
    Boot ScheduledWorkflowClient := do
  let h ← history
  emit (Event.CreateScheduledWorkflowClient ns timeout (env.scheduledWorkflowClient h))
  if env.scheduledWorkflowClient h = true then
    pure { ns := ns }
  else
    Fatalf "Failed to create scheduled workflow client. Error: %v" []

/-- Go `(c *ClientManager) init` (lines 100-125); the receiver is threaded
through and returned. -/
def ClientManager.init (env : Env) (c : ClientManager) : Boot ClientManager := do
  Infof "Initializing client manager" []
  let timeout ← getDurationConfig env initConnectionTimeout
  let db ← initDBClient env timeout
  let c := { c with time := some (← NewRealTime) }
  let c := { c with uuid := some (← NewUUIDGenerator) }
  let c := { c with db := some db }
  let c := { c with experimentStore := some (← NewExperimentStore db c.time c.uuid) }
  let c := { c with pipelineStore := some (← NewPipelineStore db c.time c.uuid) }
  let c := { c with jobStore := some (← NewJobStore db c.time) }
  let c := { c with runStore := some (← NewRunStore db c.time) }
  let c := { c with resourceReferenceStore := some (← NewResourceReferenceStore db) }
  let timeout ← getDurationConfig env initConnectionTimeout
  let c := { c with objectStore := some (← initMinioClient env timeout) }
  let ns ← getStringConfig env podNamespace
  let timeout ← getDurationConfig env initConnectionTimeout
  let c := { c with wfClient := some (← CreateWorkflowClientOrFatal env ns timeout) }
  let ns ← getStringConfig env podNamespace
  let timeout ← getDurationConfig env initConnectionTimeout
  let c := { c with swfClient := some (← CreateScheduledWorkflowClientOrFatal env ns timeout) }
  Infof "Client manager initialized successfully" []
  pure c

/-- Go `newClientManager` (lines 240-245). -/
def newClientManager (env : Env) : Boot ClientManager :=
  ClientManager.init env ClientManager.zero

/-- Go `(c *ClientManager) Close` (lines 127-129). -/
def ClientManager.Close (c : ClientManager) : Boot Unit :=
  dbClose (c.db.map DB.arg)

/-- The accessor `ObjectStore()` (lines 80-82). -/
def ClientManager.ObjectStore (c : ClientManager) : Option ObjectStore := c.objectStore

/-- The effects a computation adds when started in `w`. -/
def newEvents {α : Type} (m : Boot α) (w : World) : List Event :=
  (m w).2.trace.drop w.trace.length

/-! ## Vocabulary for statements about traces -/

/-- The effects `initMysql` can produce. -/
def isConnEvent : Event → Bool
  | Event.getStringConfig _ _ => true
  | Event.sqlOpen _ _ _ => true
  | Event.dbExec _ _ _ => true
  | Event.dbClose _ => true
  | Event.Sleep _ => true
  | Event.Fatalf _ _ => true
  | _ => false

/-- A call of `db.Close()`. -/
def isClose : Event → Bool
  | Event.dbClose _ => true
  | _ => false

/-- A call of `glog.Fatalf`. -/
def isFatalf : Event → Bool
  | Event.Fatalf _ _ => true
  | _ => false

/-- A call of `sql.Open` that returned a handle. -/
def isOpened : Event → Bool
  | Event.sqlOpen _ _ none => true
  | _ => false

/-- The statement issued by the create-database step. -/
def createDatabase : String := "CREATE DATABASE IF NOT EXISTS " ++ dbName

/-- The call that declares the foreign key of run metrics (lines 159-160),
with the error it reported. -/
def foreignKey (err : Option GoError) : Event :=
  Event.AddForeignKey "RunMetric" "RunUUID" "run_details(UUID)" "CASCADE" "CASCADE" err

/-- A call of `AddForeignKey`. -/
def isAddForeignKey : Event → Bool
  | Event.AddForeignKey _ _ _ _ _ _ => true
  | _ => false

/-- A call of `AutoMigrate`. -/
def isAutoMigrate : Event → Bool
  | Event.AutoMigrate _ _ => true
  | _ => false

/-- The connection part of a run has done its work: `sql.Open` returned a
handle, the create-database statement succeeded, and no `Fatalf` was called. -/
def Connected (es : List Event) : Prop :=
  (∃ driverName dsn, Event.sqlOpen driverName dsn none ∈ es) ∧
  (∃ receiver, Event.dbExec receiver createDatabase none ∈ es) ∧
  (∀ e ∈ es, isFatalf e = false)

/-! ## The order of the bootstrap steps -/

/-- The bootstrap step an effect belongs to: 1 establish the connection,
2 materialize the schema, 3 construct the store facades, 4 provision the object
store, 5 construct the orchestration clients.  Logging, configuration lookups
and the construction of the plain values carry no step. -/
def phase : Event → Option Nat
  | Event.sqlOpen _ _ _ => some 1
  | Event.dbExec _ _ _ => some 1
  | Event.dbClose _ => some 1
  | Event.Sleep _ => some 1
  | Event.gormOpen _ _ _ => some 1
  | Event.AutoMigrate _ _ => some 2
  | Event.AddForeignKey _ _ _ _ _ _ => some 2
  | Event.NewExperimentStore => some 3
  | Event.NewPipelineStore => some 3
  | Event.NewJobStore => some 3
  | Event.NewRunStore => some 3
  | Event.NewResourceReferenceStore => some 3
  | Event.CreateMinioClient _ _ _ _ _ _ => some 4
  | Event.MakeBucket _ _ _ => some 4
  | Event.BucketExists _ _ _ => some 4
  | Event.NewMinioObjectStore _ => some 4
  | Event.CreateWorkflowClient _ _ _ => some 5
  | Event.CreateScheduledWorkflowClient _ _ _ => some 5
  | _ => none

/-- In `es`, every effect satisfying `q` comes after some effect satisfying `p`. -/
def Precedes (p q : Event → Bool) (es : List Event) : Prop :=
  ∀ pre x post, es = pre ++ x :: post → q x = true → ∃ y ∈ pre, p y = true

/-- The create-database statement succeeded. -/
def isCreated : Event → Bool
  | Event.dbExec _ query none => decide (query = createDatabase)
  | _ => false

/-- The call `gorm.Open` returned a handle. -/
def isPooled : Event → Bool
  | Event.gormOpen _ _ none => true
  | _ => false

/-- A schema materialization call. -/
def isSchemaCall : Event → Bool
  | Event.AutoMigrate _ _ => true
  | Event.AddForeignKey _ _ _ _ _ _ => true
  | _ => false

/-- Table materialization of the six entities reported no error. -/
def isMigrated (e : Event) : Bool := decide (e = Event.AutoMigrate models none)

/-- The foreign key declaration reported no error. -/
def isKeyed (e : Event) : Bool := decide (e = foreignKey none)

/-- The construction of a store facade. -/
def isFacade : Event → Bool
  | Event.NewExperimentStore => true
  | Event.NewPipelineStore => true
  | Event.NewJobStore => true
  | Event.NewRunStore => true
  | Event.NewResourceReferenceStore => true
  | _ => false

/-- The last effect of a `createMinioBucket` that returns. -/
def isProvisioned : Event → Bool
  | Event.Infof format _ => decide (format = "Successfully created bucket %s\n")
  | _ => false

/-- The construction of the object store handle that `init` assigns to the
`objectStore` field. -/
def isHandle : Event → Bool
  | Event.NewMinioObjectStore _ => true
  | _ => false

/-- The construction of an orchestration client. -/
def isClient : Event → Bool
  | Event.CreateWorkflowClient _ _ _ => true
  | Event.CreateScheduledWorkflowClient _ _ _ => true
  | _ => false

/-- The ordering of the effects of a run: the steps appear in the order 1 to 5;
every schema call comes after a successful `sql.Open`, a successful
create-database statement and a successful `gorm.Open`; every store facade is
constructed after both schema calls succeeded; the object store handle is
constructed after bucket provisioning completed. -/
def Ordered (es : List Event) : Prop :=
  (es.filterMap phase).Pairwise (fun a b => a ≤ b) ∧
  Precedes isOpened isSchemaCall es ∧
  Precedes isCreated isSchemaCall es ∧
  Precedes isPooled isSchemaCall es ∧
  Precedes isMigrated isFacade es ∧
  Precedes isKeyed isFacade es ∧
  Precedes isProvisioned isHandle es

/-- The step a run is entitled to be in at each stage of the bootstrap:
0 start, 1 connecting, 2 connected, 3 migrating, 4 schema in place, 5 facades,
6 provisioning, 7 bucket in place, 8 object store handle built, 9 clients. -/
def stagePhase : Nat → Nat
  | 0 => 0
  | 1 => 1
  | 2 => 1
  | 3 => 2
  | 4 => 2
  | 5 => 3
  | 6 => 4
  | 7 => 4
  | 8 => 4
  | _ => 5

/-- The effects that must have occurred once a run has reached stage `n`. -/
def Markers (n : Nat) (es : List Event) : Prop :=
  (2 ≤ n → (∃ y ∈ es, isOpened y = true) ∧ (∃ y ∈ es, isCreated y = true) ∧
    (∃ y ∈ es, isPooled y = true)) ∧
  (4 ≤ n → (∃ y ∈ es, isMigrated y = true) ∧ (∃ y ∈ es, isKeyed y = true)) ∧
  (5 ≤ n → ∃ y ∈ es, isFacade y = true) ∧
  (7 ≤ n → ∃ y ∈ es, isProvisioned y = true) ∧
  (8 ≤ n → ∃ y ∈ es, isHandle y = true) ∧
  (9 ≤ n → ∃ y ∈ es, isClient y = true)

/-- A run that has reached stage `n` with effects `es`. -/
def Stage (n : Nat) (es : List Event) : Prop :=
  Ordered es ∧ (∀ e ∈ es, ∀ j, phase e = some j → j ≤ stagePhase n) ∧ Markers n es

/-- A computation that takes a run from stage `n` to stage `n'` when it
returns, and leaves it in some stage when it ends the process.  The effects are
counted from the prefix `t0`. -/
def Step {α : Type} (t0 : List Event) (n n' : Nat) (m : Boot α) : Prop :=
  ∀ w es, w.trace = t0 ++ es → Stage n es →
    ∃ es', (m w).2.trace = t0 ++ es' ∧ (∃ j, Stage j es') ∧
      ((m w).1.returned = true → Stage n' es')

/-- All eleven fields of a `ClientManager` are set. -/
def ClientManager.AllSet (c : ClientManager) : Prop :=
  c.db.isSome = true ∧ c.experimentStore.isSome = true ∧ c.pipelineStore.isSome = true ∧
  c.jobStore.isSome = true ∧ c.runStore.isSome = true ∧
  c.resourceReferenceStore.isSome = true ∧ c.objectStore.isSome = true ∧
  c.wfClient.isSome = true ∧ c.swfClient.isSome = true ∧ c.time.isSome = true ∧
  c.uuid.isSome = true

/-- A computation that only appends effects and calls `Fatalf` exactly when it
ends the process, as its last effect. -/
def Sane {α : Type} (m : Boot α) : Prop :=
  ∀ w, ∃ es, (m w).2.trace = w.trace ++ es ∧
    ((∃ a, (m w).1 = Outcome.ret a ∧ ∀ e ∈ es, isFatalf e = false) ∨
     (∃ format args es0, (m w).1 = Outcome.fatal format args ∧
        es = es0 ++ [Event.Fatalf format args] ∧ ∀ e ∈ es0, isFatalf e = false))

/-- Every value the computation returns satisfies `P`. -/
def Returns {α : Type} (m : Boot α) (P : α → Prop) : Prop :=
  ∀ w a, (m w).1 = Outcome.ret a → P a

/-! ## Vocabulary for statements about the retrier -/

/-- The first `n` delays of a run of the retrier whose next delay is `interval`. -/
def ExponentialBackOff.intervals (b : ExponentialBackOff) : Nat → Nat → List Nat
  | 0, _ => []
  | n + 1, interval => interval :: b.intervals n (b.next interval)

/-- The delays slept in a list of effects, in order. -/
def sleeps : List Event → List Nat
  | [] => []
  | Event.Sleep delay :: es => delay :: sleeps es
  | _ :: es => sleeps es

/-- An operation that counts its invocations in a variable of its closure and
whose invocation number `i` (counted from 0) returns the error `outcomes i`. -/
def scriptedOperation (outcomes : Nat → Option GoError) : Nat → Boot (Nat × Option GoError) :=
  fun n => pure (n + 1, outcomes n)

/-- The outcomes of an operation that fails once and then succeeds. -/
def failsOnce : Nat → Option GoError :=
  fun i => if i < 1 then some "connection refused" else none

/-- The outcomes of an operation that fails twice and then succeeds. -/
def failsTwice : Nat → Option GoError :=
  fun i => if i < 2 then some "connection refused" else none

/-! ## Concrete environments -/

/-- An environment in which every lookup and every call succeeds at once. -/
def goodEnv : Env where
  stringConfig := fun name => if name = "DBConfig.DriverName" then some "mysql" else some "v"
  durationConfig := fun _ => some 10
  sqlOpen := fun _ => none
  dbExec := fun _ => none
  backOff := { InitialInterval := 500, MultiplierNum := 3, MultiplierDen := 2,
               MaxElapsedTime := 900000, den_pos := by decide, increasing := by decide }
  retryBudget := fun _ _ => 1
  gormOpen := fun _ => none
  AutoMigrate := fun _ => none
  AddForeignKey := fun _ => none
  minioClient := fun _ => some setStore
  workflowClient := fun _ => true
  scheduledWorkflowClient := fun _ => true

/-- An environment whose database server hands out a handle but refuses the
create-database statement for as long as the retry policy lasts. -/
def execFailsEnv : Env :=
  { goodEnv with dbExec := fun _ => some "connection refused" }

/-- An environment configured with a driver other than "mysql". -/
def sqliteEnv : Env :=
  { goodEnv with stringConfig := fun _ => some "sqlite" }

/-- The world at process start: no effect yet, an empty object store. -/
def World.start : World := { trace := [], buckets := [] }

/-! ## Running computations -/

@[simp] theorem pure_run {α : Type} (a : α) (w : World) :
    (pure a : Boot α) w = (Outcome.ret a, w) := rfl

@[simp] theorem bind_run {α β : Type} (m : Boot α) (f : α → Boot β) (w : World) :
    (m >>= f) w =
      match m w with
      | (Outcome.ret a, w1) => f a w1
      | (Outcome.fatal format args, w1) => (Outcome.fatal format args, w1) := rfl

@[simp] theorem emit_run (e : Event) (w : World) :
    emit e w = (Outcome.ret (), { w with trace := w.trace ++ [e] }) := rfl

@[simp] theorem history_run (w : World) : history w = (Outcome.ret w.trace, w) := rfl

@[simp] theorem Infof_run (format : String) (args : List Arg) (w : World) :
    Infof format args w =
      (Outcome.ret (), { w with trace := w.trace ++ [Event.Infof format args] }) := rfl

@[simp] theorem Fatalf_run {α : Type} (format : String) (args : List Arg) (w : World) :
    (Fatalf format args : Boot α) w =
      (Outcome.fatal format args,
        { w with trace := w.trace ++ [Event.Fatalf format args] }) := rfl

@[simp] theorem MakeBucket_run (c : MinioClient) (bucketName location : String) (w : World) :
    c.MakeBucket bucketName location w =
      (Outcome.ret (c.makeBucket bucketName location w.buckets).1,
        { trace := w.trace ++
            [Event.MakeBucket bucketName location (c.makeBucket bucketName location w.buckets).1],
          buckets := (c.makeBucket bucketName location w.buckets).2 }) := rfl

@[simp] theorem BucketExists_run (c : MinioClient) (bucketName : String) (w : World) :
    c.BucketExists bucketName w =
      (Outcome.ret (c.bucketExists bucketName w.buckets).1,
        { trace := w.trace ++
            [Event.BucketExists bucketName (c.bucketExists bucketName w.buckets).1.1
              (c.bucketExists bucketName w.buckets).1.2],
          buckets := (c.bucketExists bucketName w.buckets).2 }) := rfl

/-! ## Bucket provisioning -/

/-- The run of `createMinioBucket` when `MakeBucket` reports no error. -/
theorem createMinioBucket_made (c : MinioClient) (bucketName : String) (w : World)
    (h : (c.makeBucket bucketName "" w.buckets).1 = none) :
    createMinioBucket c bucketName w =
      (Outcome.ret (),
        { trace := w.trace ++ [Event.MakeBucket bucketName "" none,
            Event.Infof "Successfully created bucket %s\n" [Arg.str bucketName]],
          buckets := (c.makeBucket bucketName "" w.buckets).2 }) := by
  simp [createMinioBucket, h]

/-- The run of `createMinioBucket` when `MakeBucket` fails and `BucketExists`
answers that the bucket exists, without error. -/
theorem createMinioBucket_owned (c : MinioClient) (bucketName : String) (w : World)
    (e : GoError) (h : (c.makeBucket bucketName "" w.buckets).1 = some e)
    (hb : (c.bucketExists bucketName (c.makeBucket bucketName "" w.buckets).2).1 = (true, none)) :
    createMinioBucket c bucketName w =
      (Outcome.ret (),
        { trace := w.trace ++ [Event.MakeBucket bucketName "" (some e),
            Event.BucketExists bucketName true none,
            Event.Infof "We already own %s\n" [Arg.str bucketName],
            Event.Infof "Successfully created bucket %s\n" [Arg.str bucketName]],
          buckets := (c.bucketExists bucketName (c.makeBucket bucketName "" w.buckets).2).2 }) := by
  simp [createMinioBucket, h, hb]

/-- The run of `createMinioBucket` when `MakeBucket` fails and `BucketExists`
does not confirm the bucket. -/
theorem createMinioBucket_failed (c : MinioClient) (bucketName : String) (w : World)
    (e : GoError) (h : (c.makeBucket bucketName "" w.buckets).1 = some e)
    (hb : (c.bucketExists bucketName (c.makeBucket bucketName "" w.buckets).2).1 ≠ (true, none)) :
    createMinioBucket c bucketName w =
      (Outcome.fatal "Failed to create Minio bucket. Error: %v"
          [Arg.err (c.bucketExists bucketName (c.makeBucket bucketName "" w.buckets).2).1.2],
        { trace := w.trace ++ [Event.MakeBucket bucketName "" (some e),
            Event.BucketExists bucketName
              (c.bucketExists bucketName (c.makeBucket bucketName "" w.buckets).2).1.1
              (c.bucketExists bucketName (c.makeBucket bucketName "" w.buckets).2).1.2,
            Event.Fatalf "Failed to create Minio bucket. Error: %v"
              [Arg.err (c.bucketExists bucketName (c.makeBucket bucketName "" w.buckets).2).1.2]],
          buckets := (c.bucketExists bucketName (c.makeBucket bucketName "" w.buckets).2).2 }) := by
  have hb2 : ¬ ((c.bucketExists bucketName (c.makeBucket bucketName "" w.buckets).2).1.2 = none ∧
      (c.bucketExists bucketName (c.makeBucket bucketName "" w.buckets).2).1.1 = true) := by
    rintro ⟨h1, h2⟩
    exact hb (Prod.ext h2 h1)
  simp [createMinioBucket, h, hb2]

/-- C1.  For every answer of the object store, `createMinioBucket` returns
exactly when `MakeBucket` reported no error, or `MakeBucket` reported an error
and `BucketExists` answered (true, no error); in every other case it ends the
process with `Fatalf`; and `BucketExists` is called only after `MakeBucket`
reported an error. -/
theorem createMinioBucket_returns_iff (c : MinioClient) (bucketName : String) (w : World) :
    ((createMinioBucket c bucketName w).1 = Outcome.ret () ↔
      ((c.makeBucket bucketName "" w.buckets).1 = none ∨
        ((c.makeBucket bucketName "" w.buckets).1 ≠ none ∧
          (c.bucketExists bucketName (c.makeBucket bucketName "" w.buckets).2).1
            = (true, none)))) ∧
    ((∃ format args, (createMinioBucket c bucketName w).1 = Outcome.fatal format args ∧
        ((createMinioBucket c bucketName w).2.trace.getLast? = some (Event.Fatalf format args))) ↔
      ¬ ((c.makeBucket bucketName "" w.buckets).1 = none ∨
        ((c.makeBucket bucketName "" w.buckets).1 ≠ none ∧
          (c.bucketExists bucketName (c.makeBucket bucketName "" w.buckets).2).1
            = (true, none)))) ∧
    ((∃ name found err, Event.BucketExists name found err ∈ newEvents (createMinioBucket c bucketName) w) ↔
      (c.makeBucket bucketName "" w.buckets).1 ≠ none) := by
  cases h : (c.makeBucket bucketName "" w.buckets).1 with
  | none =>
    simp [newEvents, createMinioBucket_made c bucketName w h]
  | some e =>
    by_cases hb : (c.bucketExists bucketName (c.makeBucket bucketName "" w.buckets).2).1
        = (true, none)
    · simp [newEvents, createMinioBucket_owned c bucketName w e h hb, hb]
    · simp [newEvents, createMinioBucket_failed c bucketName w e h hb, hb]

/-- C10.  Whenever `createMinioBucket` ends the process, the error printed by
`Fatalf` is the one returned by `BucketExists`, whatever error `MakeBucket`
returned; in particular, when `MakeBucket` fails with any error `e` and
`BucketExists` answers (false, no error), the process ends with a message whose
error value is nil. -/
theorem createMinioBucket_fatal_reports_existence_error (c : MinioClient)
    (bucketName : String) (w : World) :
    (∀ format args, (createMinioBucket c bucketName w).1 = Outcome.fatal format args →
      format = "Failed to create Minio bucket. Error: %v" ∧
      args = [Arg.err (c.bucketExists bucketName (c.makeBucket bucketName "" w.buckets).2).1.2] ∧
      (createMinioBucket c bucketName w).2.trace.getLast? = some (Event.Fatalf format args)) ∧
    (∀ e, (c.makeBucket bucketName "" w.buckets).1 = some e →
      (c.bucketExists bucketName (c.makeBucket bucketName "" w.buckets).2).1 = (false, none) →
      (createMinioBucket c bucketName w).1
          = Outcome.fatal "Failed to create Minio bucket. Error: %v" [Arg.err none] ∧
        newEvents (createMinioBucket c bucketName) w =
          [Event.MakeBucket bucketName "" (some e), Event.BucketExists bucketName false none,
            Event.Fatalf "Failed to create Minio bucket. Error: %v" [Arg.err none]]) := by
  constructor
  · intro format args hf
    cases h : (c.makeBucket bucketName "" w.buckets).1 with
    | none => simp [createMinioBucket_made c bucketName w h] at hf
    | some e =>
      by_cases hb : (c.bucketExists bucketName (c.makeBucket bucketName "" w.buckets).2).1
          = (true, none)
      · simp [createMinioBucket_owned c bucketName w e h hb] at hf
      · rw [createMinioBucket_failed c bucketName w e h hb] at hf ⊢
        simp only [Outcome.fatal.injEq] at hf
        obtain ⟨h1, h2⟩ := hf
        subst h1 h2
        simp
  · intro e h hb
    have hb2 : (c.bucketExists bucketName (c.makeBucket bucketName "" w.buckets).2).1
        ≠ (true, none) := by rw [hb]; simp
    simp [newEvents, createMinioBucket_failed c bucketName w e h hb2, hb]

/-- C2.  Over the set-of-names object store, for every bucket name and every
initial store, two calls of `createMinioBucket` in sequence both return, and
the store after the second call equals the store after the first. -/
theorem createMinioBucket_idempotent (bucketName : String) (w : World) :
    (createMinioBucket setStore bucketName w).1 = Outcome.ret () ∧
    (createMinioBucket setStore bucketName (createMinioBucket setStore bucketName w).2).1
      = Outcome.ret () ∧
    (createMinioBucket setStore bucketName (createMinioBucket setStore bucketName w).2).2.buckets
      = (createMinioBucket setStore bucketName w).2.buckets ∧
    bucketName ∈ (createMinioBucket setStore bucketName w).2.buckets := by
  have key : ∀ w1 : World, bucketName ∈ w1.buckets →
      (createMinioBucket setStore bucketName w1).1 = Outcome.ret () ∧
      (createMinioBucket setStore bucketName w1).2.buckets = w1.buckets := by
    intro w1 hmem
    have h1 : (setStore.makeBucket bucketName "" w1.buckets) =
        (some "bucket already exists", w1.buckets) := by simp [setStore, hmem]
    have h2 : (setStore.bucketExists bucketName w1.buckets) = ((true, none), w1.buckets) := by
      simp [setStore, hmem]
    rw [createMinioBucket_owned setStore bucketName w1 "bucket already exists"
      (by rw [h1]) (by rw [h1, h2])]
    simp [h1, h2]
  by_cases hmem : bucketName ∈ w.buckets
  · obtain ⟨k1, k2⟩ := key w hmem
    have hmem2 : bucketName ∈ (createMinioBucket setStore bucketName w).2.buckets := by
      rw [k2]; exact hmem
    obtain ⟨k3, k4⟩ := key _ hmem2
    exact ⟨k1, k3, k4, hmem2⟩
  · have h1 : (setStore.makeBucket bucketName "" w.buckets) = (none, bucketName :: w.buckets) := by
      simp [setStore, hmem]
    have hrun := createMinioBucket_made setStore bucketName w (by rw [h1])
    have hmem2 : bucketName ∈ (createMinioBucket setStore bucketName w).2.buckets := by
      rw [hrun, h1]; simp
    obtain ⟨k3, k4⟩ := key _ hmem2
    refine ⟨by rw [hrun], k3, k4, hmem2⟩

/-- C3, as stated, fails: on the store holding bucket "b", the run of
`createMinioBucket` for "b" returns, yet it contains a `MakeBucket` call that
returned an error. -/
theorem createMinioBucket_existing_takes_error_path :
    "b" ∈ ({ trace := [], buckets := ["b"] } : World).buckets ∧
    (createMinioBucket setStore "b" { trace := [], buckets := ["b"] }).1 = Outcome.ret () ∧
    Event.MakeBucket "b" "" (some "bucket already exists") ∈
      newEvents (createMinioBucket setStore "b") { trace := [], buckets := ["b"] } := by
  have h1 : (setStore.makeBucket "b" "" ["b"]) = (some "bucket already exists", ["b"]) := by
    simp [setStore]
  have h2 : (setStore.bucketExists "b" ["b"]) = ((true, none), ["b"]) := by
    simp [setStore]
  rw [newEvents, createMinioBucket_owned setStore "b" { trace := [], buckets := ["b"] }
    "bucket already exists" (by rw [h1]) (by rw [h1, h2])]
  simp

/-- C3, amended.  For every object store in which the named bucket already
exists, `createMinioBucket` attempts the creation first: the first effect of
its run is the `MakeBucket` call.  When the store rejects the creation of the
existing bucket and confirms the bucket, that is `MakeBucket` returns an error
and `BucketExists` answers (true, no error), `createMinioBucket` returns, and
it gets there through the creation error path: its run is exactly the failing
`MakeBucket` call, the confirming `BucketExists` call and the two log lines.
The set-of-names store answers in this way for every bucket it holds, and is
left unchanged. -/
theorem createMinioBucket_existing_bucket (bucketName : String) (w : World)
    (h : bucketName ∈ w.buckets) :
    (∀ c : MinioClient, ∃ rest, newEvents (createMinioBucket c bucketName) w =
      Event.MakeBucket bucketName "" (c.makeBucket bucketName "" w.buckets).1 :: rest) ∧
    (∀ (c : MinioClient) (e : GoError),
      (c.makeBucket bucketName "" w.buckets).1 = some e →
      (c.bucketExists bucketName (c.makeBucket bucketName "" w.buckets).2).1 = (true, none) →
      (createMinioBucket c bucketName w).1 = Outcome.ret () ∧
      newEvents (createMinioBucket c bucketName) w =
        [Event.MakeBucket bucketName "" (some e),
          Event.BucketExists bucketName true none,
          Event.Infof "We already own %s\n" [Arg.str bucketName],
          Event.Infof "Successfully created bucket %s\n" [Arg.str bucketName]]) ∧
    ((setStore.makeBucket bucketName "" w.buckets).1 = some "bucket already exists" ∧
      (setStore.bucketExists bucketName (setStore.makeBucket bucketName "" w.buckets).2).1
        = (true, none)) ∧
    (createMinioBucket setStore bucketName w).1 = Outcome.ret () ∧
    newEvents (createMinioBucket setStore bucketName) w =
      [Event.MakeBucket bucketName "" (some "bucket already exists"),
        Event.BucketExists bucketName true none,
        Event.Infof "We already own %s\n" [Arg.str bucketName],
        Event.Infof "Successfully created bucket %s\n" [Arg.str bucketName]] ∧
    (createMinioBucket setStore bucketName w).2.buckets = w.buckets := by
  have hgen : ∀ (c : MinioClient) (e : GoError),
      (c.makeBucket bucketName "" w.buckets).1 = some e →
      (c.bucketExists bucketName (c.makeBucket bucketName "" w.buckets).2).1 = (true, none) →
      (createMinioBucket c bucketName w).1 = Outcome.ret () ∧
      newEvents (createMinioBucket c bucketName) w =
        [Event.MakeBucket bucketName "" (some e),
          Event.BucketExists bucketName true none,
          Event.Infof "We already own %s\n" [Arg.str bucketName],
          Event.Infof "Successfully created bucket %s\n" [Arg.str bucketName]] := by
    intro c e hm hb
    rw [newEvents, createMinioBucket_owned c bucketName w e hm hb]
    simp
  have h1 : (setStore.makeBucket bucketName "" w.buckets) =
      (some "bucket already exists", w.buckets) := by simp [setStore, h]
  have h2 : (setStore.bucketExists bucketName w.buckets) = ((true, none), w.buckets) := by
    simp [setStore, h]
  have hm : (setStore.makeBucket bucketName "" w.buckets).1 = some "bucket already exists" := by
    rw [h1]
  have hb : (setStore.bucketExists bucketName (setStore.makeBucket bucketName "" w.buckets).2).1
      = (true, none) := by rw [h1, h2]
  refine ⟨?_, hgen, ⟨hm, hb⟩, (hgen setStore _ hm hb).1, (hgen setStore _ hm hb).2, ?_⟩
  · intro c
    cases hc : (c.makeBucket bucketName "" w.buckets).1 with
    | none =>
      exact ⟨[Event.Infof "Successfully created bucket %s\n" [Arg.str bucketName]], by
        rw [newEvents, createMinioBucket_made c bucketName w hc]; simp⟩
    | some e =>
      by_cases hbc : (c.bucketExists bucketName (c.makeBucket bucketName "" w.buckets).2).1
          = (true, none)
      · exact ⟨[Event.BucketExists bucketName true none,
            Event.Infof "We already own %s\n" [Arg.str bucketName],
            Event.Infof "Successfully created bucket %s\n" [Arg.str bucketName]], by
          rw [newEvents, createMinioBucket_owned c bucketName w e hc hbc]; simp⟩
      · exact ⟨[Event.BucketExists bucketName
              (c.bucketExists bucketName (c.makeBucket bucketName "" w.buckets).2).1.1
              (c.bucketExists bucketName (c.makeBucket bucketName "" w.buckets).2).1.2,
            Event.Fatalf "Failed to create Minio bucket. Error: %v"
              [Arg.err (c.bucketExists bucketName (c.makeBucket bucketName "" w.buckets).2).1.2]],
          by rw [newEvents, createMinioBucket_failed c bucketName w e hc hbc]; simp⟩
  · rw [createMinioBucket_owned setStore bucketName w "bucket already exists" hm hb]
    simp [h1, h2]

theorem createMinioBucket_existing_bucket_witness :
    "b" ∈ ({ trace := [], buckets := ["b"] } : World).buckets ∧
    (createMinioBucket setStore "b" { trace := [], buckets := ["b"] }).1 = Outcome.ret () ∧
    newEvents (createMinioBucket setStore "b") { trace := [], buckets := ["b"] } =
      [Event.MakeBucket "b" "" (some "bucket already exists"),
        Event.BucketExists "b" true none,
        Event.Infof "We already own %s\n" [Arg.str "b"],
        Event.Infof "Successfully created bucket %s\n" [Arg.str "b"]] ∧
    (createMinioBucket setStore "b" { trace := [], buckets := ["b"] }).2.buckets = ["b"] :=
  ⟨by simp,
    (createMinioBucket_existing_bucket "b" { trace := [], buckets := ["b"] } (by simp)).2.2.2⟩

/-! ## Configuration lookups and the retrier -/

theorem getStringConfig_some (env : Env) (name v : String) (w : World)
    (h : env.stringConfig name = some v) :
    getStringConfig env name w =
      (Outcome.ret v, { w with trace := w.trace ++ [Event.getStringConfig name (some v)] }) := by
  simp [getStringConfig, h]

theorem getStringConfig_none (env : Env) (name : String) (w : World)
    (h : env.stringConfig name = none) :
    getStringConfig env name w =
      (Outcome.fatal "Please specify flag %s" [Arg.str name],
        { w with trace := w.trace ++ [Event.getStringConfig name none,
            Event.Fatalf "Please specify flag %s" [Arg.str name]] }) := by
  simp [getStringConfig, h]

theorem getDurationConfig_some (env : Env) (name : String) (v : Nat) (w : World)
    (h : env.durationConfig name = some v) :
    getDurationConfig env name w =
      (Outcome.ret v, { w with trace := w.trace ++ [Event.getDurationConfig name (some v)] }) := by
  simp [getDurationConfig, h]

theorem getDurationConfig_none (env : Env) (name : String) (w : World)
    (h : env.durationConfig name = none) :
    getDurationConfig env name w =
      (Outcome.fatal "Please specify flag %s" [Arg.str name],
        { w with trace := w.trace ++ [Event.getDurationConfig name none,
            Event.Fatalf "Please specify flag %s" [Arg.str name]] }) := by
  simp [getDurationConfig, h]

/-- The retry loop around `sql.Open` always returns; it adds only `sql.Open`
calls and sleeps; it ends with a nil error exactly when its last call
succeeded, and then the handle is the one that call opened. -/
theorem RetryLoop_sqlOpen (env : Env) (b : ExponentialBackOff) (driverName dsn : String) :
    ∀ (budget interval : Nat) (v : Option String) (w : World), ∃ db err es,
      RetryLoop b (fun _ => sqlOpen env driverName dsn) budget interval v w =
        (Outcome.ret (db, err), { trace := w.trace ++ es, buckets := w.buckets }) ∧
      (∀ e ∈ es, (∃ d, e = Event.Sleep d) ∨ ∃ x, e = Event.sqlOpen driverName dsn x) ∧
      (err = none → db = some dsn ∧ Event.sqlOpen driverName dsn none ∈ es) ∧
      (err ≠ none → db = none) := by
  intro budget
  induction budget with
  | zero =>
    intro interval v w
    by_cases h : env.sqlOpen w.trace = none
    · exact ⟨some dsn, none, [Event.sqlOpen driverName dsn none], by
        simp [RetryLoop, sqlOpen, h], by simp, by simp, by simp⟩
    · exact ⟨none, env.sqlOpen w.trace, [Event.sqlOpen driverName dsn (env.sqlOpen w.trace)], by
        simp [RetryLoop, sqlOpen, h], by simp, by simp [h], by simp⟩
  | succ n ih =>
    intro interval v w
    by_cases h : env.sqlOpen w.trace = none
    · exact ⟨some dsn, none, [Event.sqlOpen driverName dsn none], by
        simp [RetryLoop, sqlOpen, h], by simp, by simp, by simp⟩
    · obtain ⟨db, err, es, hrun, hall, hok, hbad⟩ := ih (b.next interval) none
        { trace := w.trace ++ [Event.sqlOpen driverName dsn (env.sqlOpen w.trace)] ++
            [Event.Sleep interval],
          buckets := w.buckets }
      refine ⟨db, err,
        [Event.sqlOpen driverName dsn (env.sqlOpen w.trace), Event.Sleep interval] ++ es,
        ?_, ?_, ?_, hbad⟩
      · simp [RetryLoop, sqlOpen, h]
        simpa using hrun
      · intro e he
        simp only [List.mem_append, List.mem_cons, List.mem_singleton, List.not_mem_nil,
          or_false] at he
        rcases he with (he | he) | he
        · exact Or.inr ⟨_, he⟩
        · exact Or.inl ⟨_, he⟩
        · exact hall e he
      · intro herr
        obtain ⟨h1, h2⟩ := hok herr
        exact ⟨h1, List.mem_append_right _ h2⟩

/-- The retry loop around the create-database statement always returns; it adds
only `db.Exec` calls on the given handle and sleeps; it ends with a nil error
exactly when its last call succeeded. -/
theorem RetryLoop_dbExec (env : Env) (b : ExponentialBackOff) (db : Option String)
    (query : String) :
    ∀ (budget interval : Nat) (w : World), ∃ err es,
      RetryLoop b (fun _ => do
          let err ← dbExec env db query
          pure ((), err)) budget interval () w =
        (Outcome.ret ((), err), { trace := w.trace ++ es, buckets := w.buckets }) ∧
      (∀ e ∈ es, (∃ d, e = Event.Sleep d) ∨ ∃ x, e = Event.dbExec db query x) ∧
      (err = none → Event.dbExec db query none ∈ es) := by
  intro budget
  induction budget with
  | zero =>
    intro interval w
    exact ⟨env.dbExec w.trace, [Event.dbExec db query (env.dbExec w.trace)], by
      simp [RetryLoop, dbExec], by simp, by intro h; simp [h]⟩
  | succ n ih =>
    intro interval w
    by_cases h : env.dbExec w.trace = none
    · exact ⟨none, [Event.dbExec db query none], by
        simp [RetryLoop, dbExec, h], by simp, by simp⟩
    · obtain ⟨err, es, hrun, hall, hok⟩ := ih (b.next interval)
        { trace := w.trace ++ [Event.dbExec db query (env.dbExec w.trace)] ++
            [Event.Sleep interval],
          buckets := w.buckets }
      refine ⟨err, [Event.dbExec db query (env.dbExec w.trace), Event.Sleep interval] ++ es,
        ?_, ?_, ?_⟩
      · simp [RetryLoop, dbExec, h]
        simpa [dbExec] using hrun
      · intro e he
        simp only [List.mem_append, List.mem_cons, List.mem_singleton, List.not_mem_nil,
          or_false] at he
        rcases he with (he | he) | he
        · exact Or.inr ⟨_, he⟩
        · exact Or.inl ⟨_, he⟩
        · exact hall e he
      · intro herr
        exact List.mem_append_right _ (hok herr)

/-- Every run of `initMysql`, described by its effects `es`: they are all
connection effects and the bucket store is untouched; either the function
returns, and then `es` ends with the deferred `db.Close()` on the handle that a
successful `sql.Open` returned, after a successful create-database statement on
that handle; or the process ends with `Fatalf` as last effect, and no
`db.Close()` was executed. -/
theorem initMysql_spec (env : Env) (driverName : String) (timeout : Nat) (w : World) :
    ∃ es, (initMysql env driverName timeout w).2 =
        { trace := w.trace ++ es, buckets := w.buckets } ∧
      (∀ e ∈ es, isConnEvent e = true) ∧
      ((∃ dsn dsn0 es0, (initMysql env driverName timeout w).1 = Outcome.ret dsn ∧
          es = es0 ++ [Event.dbClose (some dsn0)] ∧
          Event.sqlOpen driverName dsn0 none ∈ es0 ∧
          Event.dbExec (some dsn0) createDatabase none ∈ es0 ∧
          (∀ e ∈ es0, isClose e = false) ∧ (∀ e ∈ es0, isFatalf e = false)) ∨
       (∃ format args es0, (initMysql env driverName timeout w).1 = Outcome.fatal format args ∧
          es = es0 ++ [Event.Fatalf format args] ∧
          (∀ e ∈ es0, isClose e = false) ∧ (∀ e ∈ es0, isFatalf e = false) ∧
          (format = "Please specify flag %s" ∨ format = "%v"))) := by
  cases hh : env.stringConfig mysqlServiceHost with
  | none =>
    refine ⟨[Event.getStringConfig mysqlServiceHost none,
        Event.Fatalf "Please specify flag %s" [Arg.str mysqlServiceHost]], ?_, ?_,
      Or.inr ⟨"Please specify flag %s", [Arg.str mysqlServiceHost],
        [Event.getStringConfig mysqlServiceHost none], ?_, rfl, ?_, ?_, Or.inl rfl⟩⟩
    · simp [initMysql, getStringConfig_none env _ _ hh]
    · simp [isConnEvent]
    · simp [initMysql, getStringConfig_none env _ _ hh]
    · simp [isClose]
    · simp [isFatalf]
  | some host =>
    cases hp : env.stringConfig mysqlServicePort with
    | none =>
      refine ⟨[Event.getStringConfig mysqlServiceHost (some host),
          Event.getStringConfig mysqlServicePort none,
          Event.Fatalf "Please specify flag %s" [Arg.str mysqlServicePort]], ?_, ?_,
        Or.inr ⟨"Please specify flag %s", [Arg.str mysqlServicePort],
          [Event.getStringConfig mysqlServiceHost (some host),
            Event.getStringConfig mysqlServicePort none], ?_, rfl, ?_, ?_, Or.inl rfl⟩⟩
      · simp [initMysql, getStringConfig_some env _ _ _ hh, getStringConfig_none env _ _ hp]
      · simp [isConnEvent]
      · simp [initMysql, getStringConfig_some env _ _ _ hh, getStringConfig_none env _ _ hp]
      · simp [isClose]
      · simp [isFatalf]
    | some port =>
      obtain ⟨db, err, es1, hrun1, hall1, hok1, hbad1⟩ :=
        RetryLoop_sqlOpen env { env.backOff with MaxElapsedTime := timeout } driverName
          (CreateMySQLConfig "root" host port "").FormatDSN
          (env.retryBudget timeout (w.trace ++ [Event.getStringConfig mysqlServiceHost (some host)]
            ++ [Event.getStringConfig mysqlServicePort (some port)])) env.backOff.InitialInterval
          none
          { trace := w.trace ++ [Event.getStringConfig mysqlServiceHost (some host)]
            ++ [Event.getStringConfig mysqlServicePort (some port)], buckets := w.buckets }
      have hes1c : ∀ e ∈ es1, isClose e = false := by
        intro e he
        rcases hall1 e he with ⟨d, h⟩ | ⟨x, h⟩ <;> subst h <;> rfl
      have hes1f : ∀ e ∈ es1, isFatalf e = false := by
        intro e he
        rcases hall1 e he with ⟨d, h⟩ | ⟨x, h⟩ <;> subst h <;> rfl
      have hes1k : ∀ e ∈ es1, isConnEvent e = true := by
        intro e he
        rcases hall1 e he with ⟨d, h⟩ | ⟨x, h⟩ <;> subst h <;> rfl
      cases herr : err with
      | some e1 =>
        subst herr
        refine ⟨[Event.getStringConfig mysqlServiceHost (some host),
            Event.getStringConfig mysqlServicePort (some port)] ++ es1 ++
            [Event.Fatalf "%v" [Arg.err (some e1)]], ?_, ?_,
          Or.inr ⟨"%v", [Arg.err (some e1)],
            [Event.getStringConfig mysqlServiceHost (some host),
              Event.getStringConfig mysqlServicePort (some port)] ++ es1, ?_, rfl, ?_, ?_,
            Or.inr rfl⟩⟩
        · simp [initMysql, getStringConfig_some env _ _ _ hh, getStringConfig_some env _ _ _ hp,
            Retry, withDefer, TerminateIfError, NewExponentialBackOff]
          simp at hrun1
          simp [hrun1]
        · intro e he
          simp only [List.mem_append, List.mem_cons, List.mem_singleton, List.not_mem_nil,
            or_false] at he
          rcases he with ((he | he) | he) | he
          · subst he; rfl
          · subst he; rfl
          · exact hes1k e he
          · subst he; rfl
        · simp [initMysql, getStringConfig_some env _ _ _ hh, getStringConfig_some env _ _ _ hp,
            Retry, withDefer, TerminateIfError, NewExponentialBackOff]
          simp at hrun1
          simp [hrun1]
        · intro e he
          simp only [List.mem_append, List.mem_cons, List.mem_singleton, List.not_mem_nil,
            or_false] at he
          rcases he with (he | he) | he
          · subst he; rfl
          · subst he; rfl
          · exact hes1c e he
        · intro e he
          simp only [List.mem_append, List.mem_cons, List.mem_singleton, List.not_mem_nil,
            or_false] at he
          rcases he with (he | he) | he
          · subst he; rfl
          · subst he; rfl
          · exact hes1f e he
      | none =>
        subst herr
        obtain ⟨hdb, hopen⟩ := hok1 rfl
        subst hdb
        obtain ⟨err2, es2, hrun2, hall2, hok2⟩ :=
          RetryLoop_dbExec env { env.backOff with MaxElapsedTime := timeout }
            (some (CreateMySQLConfig "root" host port "").FormatDSN) createDatabase
            (env.retryBudget timeout (w.trace ++
              [Event.getStringConfig mysqlServiceHost (some host)]
              ++ [Event.getStringConfig mysqlServicePort (some port)] ++ es1))
            env.backOff.InitialInterval
            { trace := w.trace ++ [Event.getStringConfig mysqlServiceHost (some host)]
              ++ [Event.getStringConfig mysqlServicePort (some port)] ++ es1,
              buckets := w.buckets }
        have hes2c : ∀ e ∈ es2, isClose e = false := by
          intro e he
          rcases hall2 e he with ⟨d, h⟩ | ⟨x, h⟩ <;> subst h <;> rfl
        have hes2f : ∀ e ∈ es2, isFatalf e = false := by
          intro e he
          rcases hall2 e he with ⟨d, h⟩ | ⟨x, h⟩ <;> subst h <;> rfl
        have hes2k : ∀ e ∈ es2, isConnEvent e = true := by
          intro e he
          rcases hall2 e he with ⟨d, h⟩ | ⟨x, h⟩ <;> subst h <;> rfl
        have hpre : ∀ (P : Event → Prop),
            P (Event.getStringConfig mysqlServiceHost (some host)) →
            P (Event.getStringConfig mysqlServicePort (some port)) →
            (∀ e ∈ es1, P e) → (∀ e ∈ es2, P e) →
            ∀ e ∈ [Event.getStringConfig mysqlServiceHost (some host),
              Event.getStringConfig mysqlServicePort (some port)] ++ es1 ++ es2, P e := by
          intro P p1 p2 p3 p4 e he
          simp only [List.mem_append, List.mem_cons, List.mem_singleton, List.not_mem_nil,
            or_false] at he
          rcases he with ((he | he) | he) | he
          · subst he; exact p1
          · subst he; exact p2
          · exact p3 e he
          · exact p4 e he
        have hnc := hpre (fun e => isClose e = false) rfl rfl hes1c hes2c
        have hnf := hpre (fun e => isFatalf e = false) rfl rfl hes1f hes2f
        have hk := hpre (fun e => isConnEvent e = true) rfl rfl hes1k hes2k
        cases herr2 : err2 with
        | some e2 =>
          subst herr2
          refine ⟨[Event.getStringConfig mysqlServiceHost (some host),
              Event.getStringConfig mysqlServicePort (some port)] ++ es1 ++ es2 ++
              [Event.Fatalf "%v" [Arg.err (some e2)]], ?_, ?_,
            Or.inr ⟨"%v", [Arg.err (some e2)],
              [Event.getStringConfig mysqlServiceHost (some host),
                Event.getStringConfig mysqlServicePort (some port)] ++ es1 ++ es2,
              ?_, rfl, hnc, hnf, Or.inr rfl⟩⟩
          · simp [initMysql, getStringConfig_some env _ _ _ hh, getStringConfig_some env _ _ _ hp,
              Retry, withDefer, TerminateIfError, NewExponentialBackOff]
            simp at hrun1 hrun2
            simp [hrun1, createDatabase] at hrun2 ⊢
            simp [hrun2]
          · intro e he
            rcases List.mem_append.1 he with he | he
            · exact hk e he
            · simp only [List.mem_singleton] at he
              subst he; rfl
          · simp [initMysql, getStringConfig_some env _ _ _ hh, getStringConfig_some env _ _ _ hp,
              Retry, withDefer, TerminateIfError, NewExponentialBackOff]
            simp at hrun1 hrun2
            simp [hrun1, createDatabase] at hrun2 ⊢
            simp [hrun2]
        | none =>
          subst herr2
          refine ⟨[Event.getStringConfig mysqlServiceHost (some host),
              Event.getStringConfig mysqlServicePort (some port)] ++ es1 ++ es2 ++
              [Event.dbClose (some (CreateMySQLConfig "root" host port "").FormatDSN)], ?_, ?_,
            Or.inl ⟨(CreateMySQLConfig "root" host port dbName).FormatDSN,
              (CreateMySQLConfig "root" host port "").FormatDSN,
              [Event.getStringConfig mysqlServiceHost (some host),
                Event.getStringConfig mysqlServicePort (some port)] ++ es1 ++ es2,
              ?_, rfl, ?_, ?_, hnc, hnf⟩⟩
          · simp [initMysql, getStringConfig_some env _ _ _ hh, getStringConfig_some env _ _ _ hp,
              Retry, withDefer, TerminateIfError, dbClose, NewExponentialBackOff]
            simp at hrun1 hrun2
            simp [hrun1, createDatabase] at hrun2 ⊢
            simp [hrun2]
          · intro e he
            rcases List.mem_append.1 he with he | he
            · exact hk e he
            · simp only [List.mem_singleton] at he
              subst he; rfl
          · simp [initMysql, getStringConfig_some env _ _ _ hh, getStringConfig_some env _ _ _ hp,
              Retry, withDefer, TerminateIfError, dbClose, NewExponentialBackOff]
            simp at hrun1 hrun2
            simp [hrun1, createDatabase] at hrun2 ⊢
            simp [hrun2]
            rfl
          · exact List.mem_append_left _ (List.mem_append_right _ hopen)
          · exact List.mem_append_right _ (hok2 rfl)

theorem newEvents_of_trace {α : Type} (m : Boot α) (w : World) (es : List Event)
    (h : (m w).2.trace = w.trace ++ es) : newEvents m w = es := by
  simp [newEvents, h]

/-! ## The short-lived connection of `initMysql` -/

/-- C4.  The code at the failing input: when the server hands out a handle but
keeps refusing the create-database statement until the retry budget is spent,
`initMysql` ends the process with the connection opened and no `db.Close()`
executed, although `defer db.Close()` was registered before; the claim asks for
the close in every outcome. -/
theorem initMysql_fatal_skips_close :
    (initMysql execFailsEnv "mysql" 10 World.start).1
      = Outcome.fatal "%v" [Arg.err (some "connection refused")] ∧
    Event.sqlOpen "mysql" "root@tcp(v:v)/?charset=utf8&loc=Local&parseTime=True" none
      ∈ (initMysql execFailsEnv "mysql" 10 World.start).2.trace ∧
    ∀ e ∈ (initMysql execFailsEnv "mysql" 10 World.start).2.trace, isClose e = false := by
  have h : initMysql execFailsEnv "mysql" 10 World.start =
      (Outcome.fatal "%v" [Arg.err (some "connection refused")],
        { trace := [Event.getStringConfig "MYSQL_SERVICE_HOST" (some "v"),
            Event.getStringConfig "MYSQL_SERVICE_PORT" (some "v"),
            Event.sqlOpen "mysql" "root@tcp(v:v)/?charset=utf8&loc=Local&parseTime=True" none,
            Event.dbExec (some "root@tcp(v:v)/?charset=utf8&loc=Local&parseTime=True")
              "CREATE DATABASE IF NOT EXISTS mlpipeline" (some "connection refused"),
            Event.Sleep 500,
            Event.dbExec (some "root@tcp(v:v)/?charset=utf8&loc=Local&parseTime=True")
              "CREATE DATABASE IF NOT EXISTS mlpipeline" (some "connection refused"),
            Event.Fatalf "%v" [Arg.err (some "connection refused")]],
          buckets := [] }) := by
    simp [initMysql, execFailsEnv, goodEnv, World.start, getStringConfig, Retry, RetryLoop,
      NewExponentialBackOff,
      sqlOpen, dbExec, withDefer, TerminateIfError, mysqlServiceHost, mysqlServicePort,
      CreateMySQLConfig, MySQLConfig.FormatDSN, dbName]
  rw [h]
  simp [isClose]

/-- The deferred `db.Close()` of `initMysql` is executed exactly in the runs
that return; it is then the last effect and is applied to the handle that a
successful `sql.Open` returned, after the successful create-database
statement. -/
theorem initMysql_close_iff_returns (env : Env) (driverName : String) (timeout : Nat)
    (w : World) :
    ((∃ e ∈ newEvents (initMysql env driverName timeout) w, isClose e = true) ↔
      ∃ dsn, (initMysql env driverName timeout w).1 = Outcome.ret dsn) ∧
    ((∃ dsn, (initMysql env driverName timeout w).1 = Outcome.ret dsn) ↔
      ∃ dsn0 es0, newEvents (initMysql env driverName timeout) w
          = es0 ++ [Event.dbClose (some dsn0)] ∧
        Event.sqlOpen driverName dsn0 none ∈ es0 ∧
        Event.dbExec (some dsn0) createDatabase none ∈ es0 ∧
        ∀ e ∈ es0, isClose e = false) := by
  obtain ⟨es, hw, _, h⟩ := initMysql_spec env driverName timeout w
  have hes : newEvents (initMysql env driverName timeout) w = es :=
    newEvents_of_trace _ _ _ (by rw [hw])
  rw [hes]
  rcases h with ⟨dsn, dsn0, es0, hout, hes0, hopen, hexec, hnc, _⟩ |
    ⟨format, args, es0, hout, hes0, hnc, _, _⟩
  · subst hes0
    refine ⟨⟨fun _ => ⟨dsn, hout⟩, fun _ => ⟨_, List.mem_append_right _ (List.mem_singleton_self _),
      rfl⟩⟩, ⟨fun _ => ⟨dsn0, es0, rfl, hopen, hexec, hnc⟩, fun _ => ⟨dsn, hout⟩⟩⟩
  · subst hes0
    have hno : ¬ ∃ dsn, (initMysql env driverName timeout w).1 = Outcome.ret dsn := by
      rintro ⟨dsn, hd⟩
      rw [hout] at hd
      cases hd
    refine ⟨⟨?_, fun hr => absurd hr hno⟩, ⟨fun hr => absurd hr hno, ?_⟩⟩
    · rintro ⟨e, he, hc⟩
      rcases List.mem_append.1 he with he | he
      · rw [hnc e he] at hc
        cases hc
      · simp only [List.mem_singleton] at he
        subst he
        cases hc
    · rintro ⟨dsn0, es1, heq, _⟩
      have := List.append_inj_right' heq (by simp)
      simp at this

/-! ## Schema materialization in `initDBClient` -/

/-- The run of `initDBClient` when the driver name is not configured. -/
theorem initDBClient_no_driver (env : Env) (timeout : Nat) (w : World)
    (h : env.stringConfig "DBConfig.DriverName" = none) :
    initDBClient env timeout w =
      (Outcome.fatal "Please specify flag %s" [Arg.str "DBConfig.DriverName"],
        { w with trace := w.trace ++ [Event.getStringConfig "DBConfig.DriverName" none,
            Event.Fatalf "Please specify flag %s" [Arg.str "DBConfig.DriverName"]] }) := by
  simp [initDBClient, getStringConfig_none env _ _ h]

/-- The run of `initDBClient` on a driver name other than "mysql". -/
theorem initDBClient_unsupported (env : Env) (timeout : Nat) (w : World) (driverName : String)
    (h : env.stringConfig "DBConfig.DriverName" = some driverName) (hd : driverName ≠ "mysql") :
    initDBClient env timeout w =
      (Outcome.fatal "Driver %v is not supported" [Arg.str driverName],
        { w with trace := w.trace ++ [Event.getStringConfig "DBConfig.DriverName" (some driverName),
            Event.Fatalf "Driver %v is not supported" [Arg.str driverName]] }) := by
  simp [initDBClient, getStringConfig_some env _ _ _ h, hd]

/-- The run of `initDBClient` on driver "mysql", in terms of the run of
`initMysql` and of the answers to the three schema calls. -/
theorem initDBClient_mysql (env : Env) (timeout : Nat) (w : World)
    (h : env.stringConfig "DBConfig.DriverName" = some "mysql") :
    initDBClient env timeout w =
      match initMysql env "mysql" timeout
          { w with trace := w.trace ++ [Event.getStringConfig "DBConfig.DriverName" (some "mysql")] } with
      | (Outcome.fatal format args, w2) => (Outcome.fatal format args, w2)
      | (Outcome.ret arg, w2) =>
        match env.gormOpen w2.trace with
        | some e =>
          (Outcome.fatal "%v" [Arg.err (some e)],
            { w2 with trace := w2.trace ++ [Event.gormOpen "mysql" arg (some e),
                Event.Fatalf "%v" [Arg.err (some e)]] })
        | none =>
          match env.AutoMigrate (w2.trace ++ [Event.gormOpen "mysql" arg none]) with
          | some e =>
            (Outcome.fatal "Failed to initialize the databases." [],
              { w2 with trace := w2.trace ++ [Event.gormOpen "mysql" arg none,
                  Event.AutoMigrate models (some e),
                  Event.Fatalf "Failed to initialize the databases." []] })
          | none =>
            match env.AddForeignKey (w2.trace ++ [Event.gormOpen "mysql" arg none,
                Event.AutoMigrate models none]) with
            | some e =>
              (Outcome.fatal
                  "Failed to create a foreign key for RunID in run_metrics table. Error: %s"
                  [Arg.err (some e)],
                { w2 with trace := w2.trace ++ [Event.gormOpen "mysql" arg none,
                    Event.AutoMigrate models none, foreignKey (some e),
                    Event.Fatalf
                      "Failed to create a foreign key for RunID in run_metrics table. Error: %s"
                      [Arg.err (some e)]] })
            | none =>
              (Outcome.ret { arg := arg },
                { w2 with trace := w2.trace ++ [Event.gormOpen "mysql" arg none,
                    Event.AutoMigrate models none, foreignKey none, Event.NewDB] }) := by
  simp only [initDBClient, bind_run, getStringConfig_some env _ _ _ h, if_true]
  cases hm : initMysql env "mysql" timeout
      { w with trace := w.trace ++ [Event.getStringConfig "DBConfig.DriverName" (some "mysql")] } with
  | mk o w2 =>
    cases o with
    | fatal format args => simp
    | ret arg =>
      cases hg : env.gormOpen w2.trace with
      | some e => simp [gormOpen, hg, TerminateIfError]
      | none =>
        cases ha : env.AutoMigrate (w2.trace ++ [Event.gormOpen "mysql" arg none]) with
        | some e => simp [gormOpen, hg, TerminateIfError, AutoMigrate, ha]
        | none =>
          cases hf : env.AddForeignKey (w2.trace ++ [Event.gormOpen "mysql" arg none,
              Event.AutoMigrate models none]) with
          | some e =>
            simp [gormOpen, hg, TerminateIfError, AutoMigrate, ha, AddForeignKey, hf, foreignKey]
          | none =>
            simp [gormOpen, hg, TerminateIfError, AutoMigrate, ha, AddForeignKey, hf, foreignKey,
              NewDB]

/-- Every run of `initDBClient`, described by its effects: a connection part
`es1` (the driver lookup and the effects of `initMysql`) and a schema part
`tail`.  Either the process ended in the connection part; or the connection
part did its work and the schema part is one of: `gorm.Open` failed;
`AutoMigrate` failed; the foreign key declaration failed; all three succeeded
and the handle was returned. -/
theorem initDBClient_spec (env : Env) (timeout : Nat) (w : World) :
    ∃ es1 tail, (initDBClient env timeout w).2 =
        { trace := w.trace ++ (es1 ++ tail), buckets := w.buckets } ∧
      (∀ e ∈ es1, isConnEvent e = true) ∧
      ((tail = [] ∧ ∃ format args es0,
          (initDBClient env timeout w).1 = Outcome.fatal format args ∧
          es1 = es0 ++ [Event.Fatalf format args] ∧ (∀ e ∈ es0, isFatalf e = false) ∧
          (format = "Please specify flag %s" ∨ format = "%v" ∨
            (format = "Driver %v is not supported" ∧
              env.stringConfig "DBConfig.DriverName" ≠ some "mysql"))) ∨
       (Connected es1 ∧ env.stringConfig "DBConfig.DriverName" = some "mysql" ∧
        ((∃ arg e, tail = [Event.gormOpen "mysql" arg (some e),
              Event.Fatalf "%v" [Arg.err (some e)]] ∧
            (initDBClient env timeout w).1 = Outcome.fatal "%v" [Arg.err (some e)]) ∨
         (∃ arg e, tail = [Event.gormOpen "mysql" arg none, Event.AutoMigrate models (some e),
              Event.Fatalf "Failed to initialize the databases." []] ∧
            (initDBClient env timeout w).1
              = Outcome.fatal "Failed to initialize the databases." []) ∨
         (∃ arg e, tail = [Event.gormOpen "mysql" arg none, Event.AutoMigrate models none,
              foreignKey (some e),
              Event.Fatalf
                "Failed to create a foreign key for RunID in run_metrics table. Error: %s"
                [Arg.err (some e)]] ∧
            (initDBClient env timeout w).1 = Outcome.fatal
              "Failed to create a foreign key for RunID in run_metrics table. Error: %s"
              [Arg.err (some e)]) ∨
         (∃ arg, tail = [Event.gormOpen "mysql" arg none, Event.AutoMigrate models none,
              foreignKey none, Event.NewDB] ∧
            (initDBClient env timeout w).1 = Outcome.ret { arg := arg })))) := by
  cases h : env.stringConfig "DBConfig.DriverName" with
  | none =>
    refine ⟨[Event.getStringConfig "DBConfig.DriverName" none,
        Event.Fatalf "Please specify flag %s" [Arg.str "DBConfig.DriverName"]], [], ?_, ?_,
      Or.inl ⟨rfl, "Please specify flag %s", [Arg.str "DBConfig.DriverName"],
        [Event.getStringConfig "DBConfig.DriverName" none], ?_, rfl, ?_, Or.inl rfl⟩⟩
    · simp [initDBClient_no_driver env timeout w h]
    · simp [isConnEvent]
    · simp [initDBClient_no_driver env timeout w h]
    · simp [isFatalf]
  | some driverName =>
    by_cases hd : driverName = "mysql"
    · subst hd
      obtain ⟨es, hw, hconn, hcase⟩ := initMysql_spec env "mysql" timeout
        { w with trace := w.trace ++ [Event.getStringConfig "DBConfig.DriverName" (some "mysql")] }
      have hconn1 : ∀ e ∈ Event.getStringConfig "DBConfig.DriverName" (some "mysql") :: es,
          isConnEvent e = true := by
        intro e he
        rcases List.mem_cons.1 he with he | he
        · subst he; rfl
        · exact hconn e he
      rcases hcase with ⟨dsn, dsn0, es0, hout, hes0, hopen, hexec, _, hnf⟩ |
        ⟨format, args, es0, hout, hes0, _, hnf, hfmt⟩
      · have hpair : initMysql env "mysql" timeout
            { w with trace := w.trace ++
              [Event.getStringConfig "DBConfig.DriverName" (some "mysql")] } =
            (Outcome.ret dsn,
              { trace := w.trace ++ [Event.getStringConfig "DBConfig.DriverName" (some "mysql")]
                  ++ es,
                buckets := w.buckets }) := Prod.ext hout hw
        have hconnected : Connected (Event.getStringConfig "DBConfig.DriverName" (some "mysql") :: es) := by
          subst hes0
          refine ⟨⟨_, _, List.mem_cons_of_mem _ (List.mem_append_left _ hopen)⟩,
            ⟨_, List.mem_cons_of_mem _ (List.mem_append_left _ hexec)⟩, ?_⟩
          intro e he
          simp only [List.mem_cons, List.mem_append, List.mem_singleton, List.not_mem_nil,
            or_false] at he
          rcases he with he | he | he
          · subst he; rfl
          · exact hnf e he
          · subst he; rfl
        rw [initDBClient_mysql env timeout w h, hpair]
        refine ⟨Event.getStringConfig "DBConfig.DriverName" (some "mysql") :: es, ?_⟩
        simp only
        cases hg : env.gormOpen (w.trace ++
            [Event.getStringConfig "DBConfig.DriverName" (some "mysql")] ++ es) with
        | some e =>
          exact ⟨_, by simp, hconn1, Or.inr ⟨hconnected, trivial, Or.inl ⟨dsn, e, rfl, rfl⟩⟩⟩
        | none =>
          simp only
          cases ha : env.AutoMigrate (w.trace ++
              [Event.getStringConfig "DBConfig.DriverName" (some "mysql")] ++ es ++
              [Event.gormOpen "mysql" dsn none]) with
          | some e =>
            exact ⟨_, by simp, hconn1,
              Or.inr ⟨hconnected, trivial, Or.inr (Or.inl ⟨dsn, e, rfl, rfl⟩)⟩⟩
          | none =>
            simp only
            cases hf : env.AddForeignKey (w.trace ++
                [Event.getStringConfig "DBConfig.DriverName" (some "mysql")] ++ es ++
                [Event.gormOpen "mysql" dsn none, Event.AutoMigrate models none]) with
            | some e =>
              exact ⟨_, by simp, hconn1,
                Or.inr ⟨hconnected, trivial, Or.inr (Or.inr (Or.inl ⟨dsn, e, rfl, rfl⟩))⟩⟩
            | none =>
              exact ⟨_, by simp, hconn1,
                Or.inr ⟨hconnected, trivial, Or.inr (Or.inr (Or.inr ⟨dsn, rfl, rfl⟩))⟩⟩
      · have hpair : initMysql env "mysql" timeout
            { w with trace := w.trace ++
              [Event.getStringConfig "DBConfig.DriverName" (some "mysql")] } =
            (Outcome.fatal format args,
              { trace := w.trace ++ [Event.getStringConfig "DBConfig.DriverName" (some "mysql")]
                  ++ es,
                buckets := w.buckets }) := Prod.ext hout hw
        rw [initDBClient_mysql env timeout w h, hpair]
        refine ⟨Event.getStringConfig "DBConfig.DriverName" (some "mysql") :: es, [], by simp,
          hconn1, Or.inl ⟨rfl, format, args,
            Event.getStringConfig "DBConfig.DriverName" (some "mysql") :: es0, rfl, by simp [hes0],
            ?_, ?_⟩⟩
        · intro e he
          rcases List.mem_cons.1 he with he | he
          · subst he; rfl
          · exact hnf e he
        · rcases hfmt with hfmt | hfmt
          · exact Or.inl hfmt
          · exact Or.inr (Or.inl hfmt)
    · refine ⟨[Event.getStringConfig "DBConfig.DriverName" (some driverName),
          Event.Fatalf "Driver %v is not supported" [Arg.str driverName]], [], ?_, ?_,
        Or.inl ⟨rfl, "Driver %v is not supported", [Arg.str driverName],
          [Event.getStringConfig "DBConfig.DriverName" (some driverName)], ?_, rfl, ?_,
          Or.inr (Or.inr ⟨rfl, by simpa using hd⟩)⟩⟩
      · simp [initDBClient_unsupported env timeout w driverName h hd]
      · simp [isConnEvent]
      · simp [initDBClient_unsupported env timeout w driverName h hd]
      · simp [isFatalf]

/-- C5.  With the driver name configured as `driverName`: if it is not "mysql",
`initDBClient` ends the process at once, its only effects being the lookup of
the driver name and the `Fatalf` call, so no connection is opened, no retried
step is started and no schema statement is issued; if it is "mysql", the run is
never ended as an unsupported driver. -/
theorem initDBClient_supports_only_mysql (env : Env) (timeout : Nat) (w : World)
    (driverName : String) (h : env.stringConfig "DBConfig.DriverName" = some driverName) :
    (driverName ≠ "mysql" →
      (initDBClient env timeout w).1
        = Outcome.fatal "Driver %v is not supported" [Arg.str driverName] ∧
      newEvents (initDBClient env timeout) w =
        [Event.getStringConfig "DBConfig.DriverName" (some driverName),
          Event.Fatalf "Driver %v is not supported" [Arg.str driverName]] ∧
      (initDBClient env timeout w).2.buckets = w.buckets) ∧
    (driverName = "mysql" →
      ∀ args, Event.Fatalf "Driver %v is not supported" args
        ∉ newEvents (initDBClient env timeout) w) := by
  constructor
  · intro hd
    simp [newEvents, initDBClient_unsupported env timeout w driverName h hd]
  · intro hd args hmem
    subst hd
    obtain ⟨es1, tail, hw, hconn, hcase⟩ := initDBClient_spec env timeout w
    have hes : newEvents (initDBClient env timeout) w = es1 ++ tail :=
      newEvents_of_trace _ _ _ (by rw [hw])
    rw [hes] at hmem
    rcases hcase with ⟨htail, format, fargs, es0, _, hes1, hnf, hfmt⟩ | ⟨⟨_, _, hnf⟩, _, hcase⟩
    · subst htail hes1
      simp only [List.append_nil, List.mem_append, List.mem_singleton] at hmem
      rcases hmem with hmem | hmem
      · have := hnf _ hmem
        simp [isFatalf] at this
      · simp only [Event.Fatalf.injEq] at hmem
        rcases hfmt with hf | hf | ⟨_, hf⟩
        · rw [hf] at hmem
          exact absurd hmem.1 (by decide)
        · rw [hf] at hmem
          exact absurd hmem.1 (by decide)
        · exact hf h
    · rcases List.mem_append.1 hmem with hmem | hmem
      · have := hnf _ hmem
        simp [isFatalf] at this
      · rcases hcase with ⟨arg, e, ht, _⟩ | ⟨arg, e, ht, _⟩ | ⟨arg, e, ht, _⟩ | ⟨arg, ht, _⟩ <;>
          · subst ht
            simp [foreignKey] at hmem

theorem initDBClient_supports_only_mysql_witness :
    sqliteEnv.stringConfig "DBConfig.DriverName" = some "sqlite" ∧
    (initDBClient sqliteEnv 10 World.start).1
      = Outcome.fatal "Driver %v is not supported" [Arg.str "sqlite"] ∧
    newEvents (initDBClient sqliteEnv 10) World.start =
      [Event.getStringConfig "DBConfig.DriverName" (some "sqlite"),
        Event.Fatalf "Driver %v is not supported" [Arg.str "sqlite"]] ∧
    (initDBClient sqliteEnv 10 World.start).2.buckets = World.start.buckets :=
  ⟨rfl, (initDBClient_supports_only_mysql sqliteEnv 10 World.start "sqlite" rfl).1 (by decide)⟩

/-- C6.  In every run of `initDBClient`: if it returns a handle, the run ends
with `AutoMigrate` of the six entities reporting no error, then the foreign key
from `RunUUID` to `run_details(UUID)` with CASCADE on delete and on update
reporting no error, then the construction of the handle; an `AutoMigrate` or
foreign-key call that reports an error ends the process; and every foreign-key
call comes after an `AutoMigrate` call that reported no error. -/
theorem initDBClient_schema_gate (env : Env) (timeout : Nat) (w : World) :
    (∀ db, (initDBClient env timeout w).1 = Outcome.ret db →
      ∃ es0, newEvents (initDBClient env timeout) w =
          es0 ++ [Event.AutoMigrate models none, foreignKey none, Event.NewDB] ∧
        ∀ e ∈ es0, isAutoMigrate e = false ∧ isAddForeignKey e = false) ∧
    (∀ ms e, Event.AutoMigrate ms (some e) ∈ newEvents (initDBClient env timeout) w →
      ms = models ∧
      (initDBClient env timeout w).1 = Outcome.fatal "Failed to initialize the databases." []) ∧
    (∀ model field dest onDelete onUpdate e,
      Event.AddForeignKey model field dest onDelete onUpdate (some e)
        ∈ newEvents (initDBClient env timeout) w →
      Event.AddForeignKey model field dest onDelete onUpdate (some e) = foreignKey (some e) ∧
      (initDBClient env timeout w).1 = Outcome.fatal
        "Failed to create a foreign key for RunID in run_metrics table. Error: %s"
        [Arg.err (some e)]) ∧
    (∀ pre x post, newEvents (initDBClient env timeout) w = pre ++ x :: post →
      isAddForeignKey x = true → Event.AutoMigrate models none ∈ pre) := by
  obtain ⟨es1, tail, hw, hconn, hcase⟩ := initDBClient_spec env timeout w
  have hes : newEvents (initDBClient env timeout) w = es1 ++ tail :=
    newEvents_of_trace _ _ _ (by rw [hw])
  rw [hes]
  have hna : ∀ e ∈ es1, isAutoMigrate e = false ∧ isAddForeignKey e = false := by
    intro e he
    have := hconn e he
    cases e <;> simp [isConnEvent, isAutoMigrate, isAddForeignKey] at this ⊢
  have hsplit : ∀ (pre : List Event) (x : Event) (post : List Event),
      es1 ++ tail = pre ++ x :: post → isAddForeignKey x = true →
      ∃ t1, pre = es1 ++ t1 ∧ tail = t1 ++ x :: post := by
    intro pre x post heq hx
    rcases List.append_eq_append_iff.1 heq with ⟨a, h1, h2⟩ | ⟨c, h1, h2⟩
    · exact ⟨a, h1, h2⟩
    · cases c with
      | nil => exact ⟨[], by simpa using h1.symm, by simpa using h2.symm⟩
      | cons y c =>
        exfalso
        simp only [List.cons_append, List.cons.injEq] at h2
        have hx1 : x ∈ es1 := by rw [h1, h2.1]; simp
        have := (hna x hx1).2
        rw [hx] at this
        cases this
  rcases hcase with ⟨htail, format, fargs, es0, hout, _, _, _⟩ | ⟨_, _, hcase⟩
  · subst htail
    refine ⟨?_, ?_, ?_, ?_⟩
    · intro db hdb
      rw [hout] at hdb
      cases hdb
    · intro ms e hmem
      have := (hna _ (by simpa using hmem)).1
      simp [isAutoMigrate] at this
    · intro model field dest onDelete onUpdate e hmem
      have := (hna _ (by simpa using hmem)).2
      simp [isAddForeignKey] at this
    · intro pre x post heq hx
      obtain ⟨t1, _, ht⟩ := hsplit pre x post heq hx
      simp at ht
  · have hmemtail : ∀ e, (isAutoMigrate e = true ∨ isAddForeignKey e = true) →
        e ∈ es1 ++ tail → e ∈ tail := by
      intro e he hmem
      rcases List.mem_append.1 hmem with hmem | hmem
      · have := hna e hmem
        rcases he with he | he
        · rw [this.1] at he; cases he
        · rw [this.2] at he; cases he
      · exact hmem
    refine ⟨?_, ?_, ?_, ?_⟩
    · intro db hdb
      rcases hcase with ⟨arg, e, ht, hout⟩ | ⟨arg, e, ht, hout⟩ | ⟨arg, e, ht, hout⟩ |
        ⟨arg, ht, hout⟩
      · rw [hout] at hdb; cases hdb
      · rw [hout] at hdb; cases hdb
      · rw [hout] at hdb; cases hdb
      · subst ht
        refine ⟨es1 ++ [Event.gormOpen "mysql" arg none], by simp, ?_⟩
        intro e he
        rcases List.mem_append.1 he with he | he
        · exact hna e he
        · simp only [List.mem_singleton] at he
          subst he
          exact ⟨rfl, rfl⟩
    · intro ms e hmem
      have hmem := hmemtail (Event.AutoMigrate ms (some e)) (Or.inl rfl) hmem
      rcases hcase with ⟨arg, e1, ht, hout⟩ | ⟨arg, e1, ht, hout⟩ | ⟨arg, e1, ht, hout⟩ |
        ⟨arg, ht, hout⟩ <;> subst ht <;> simp [foreignKey] at hmem
      exact ⟨hmem.1, hout⟩
    · intro model field dest onDelete onUpdate e hmem
      have hmem := hmemtail (Event.AddForeignKey model field dest onDelete onUpdate (some e))
        (Or.inr rfl) hmem
      rcases hcase with ⟨arg, e1, ht, hout⟩ | ⟨arg, e1, ht, hout⟩ | ⟨arg, e1, ht, hout⟩ |
        ⟨arg, ht, hout⟩ <;> subst ht <;> simp [foreignKey] at hmem
      obtain ⟨h1, h2, h3, h4, h5, h6⟩ := hmem
      subst h1 h2 h3 h4 h5 h6
      exact ⟨rfl, hout⟩
    · intro pre x post heq hx
      obtain ⟨t1, hpre, ht⟩ := hsplit pre x post heq hx
      subst hpre
      have hx2 : x ∈ tail := by rw [ht]; simp
      have key : ∀ (g : Event) (rest : List Event),
          tail = g :: Event.AutoMigrate models none :: rest → isAddForeignKey g = false →
          Event.AutoMigrate models none ∈ es1 ++ t1 := by
        intro g rest hg hgf
        rw [hg] at ht
        apply List.mem_append_right
        cases t1 with
        | nil =>
          simp only [List.nil_append, List.cons.injEq] at ht
          rw [← ht.1, hgf] at hx
          cases hx
        | cons a t1 =>
          cases t1 with
          | nil =>
            simp only [List.cons_append, List.nil_append, List.cons.injEq] at ht
            rw [← ht.2.1] at hx
            cases hx
          | cons b t1 =>
            simp only [List.cons_append, List.cons.injEq] at ht
            rw [← ht.2.1]
            simp
      rcases hcase with ⟨arg, e1, ht1, hout⟩ | ⟨arg, e1, ht1, hout⟩ | ⟨arg, e1, ht1, hout⟩ |
        ⟨arg, ht1, hout⟩
      · rw [ht1] at hx2
        simp only [List.mem_cons, List.mem_singleton, List.not_mem_nil, or_false] at hx2
        rcases hx2 with h | h <;> rw [h] at hx <;> cases hx
      · rw [ht1] at hx2
        simp only [List.mem_cons, List.mem_singleton, List.not_mem_nil, or_false] at hx2
        rcases hx2 with h | h | h <;> rw [h] at hx <;> cases hx
      · exact key _ _ ht1 rfl
      · exact key _ _ ht1 rfl

/-! ## Ordering of the bootstrap steps -/

theorem Precedes.nil (p q : Event → Bool) : Precedes p q [] := by
  intro pre x post h
  simp at h

theorem Precedes.append_of_none {p q : Event → Bool} {a b : List Event}
    (ha : Precedes p q a) (hb : ∀ x ∈ b, q x = false) : Precedes p q (a ++ b) := by
  intro pre x post h hx
  rcases List.append_eq_append_iff.1 h with ⟨c, h1, h2⟩ | ⟨c, h1, h2⟩
  · have : x ∈ b := by rw [h2]; simp
    rw [hb x this] at hx
    cases hx
  · cases c with
    | nil =>
      have : x ∈ b := by
        simp only [List.nil_append] at h2
        rw [← h2]; simp
      rw [hb x this] at hx
      cases hx
    | cons y c =>
      simp only [List.cons_append, List.cons.injEq] at h2
      exact ha pre x c (by rw [h1, h2.1]) hx

theorem Precedes.append_of_mem {p q : Event → Bool} {a b : List Event}
    (ha : Precedes p q a) (hm : ∃ y ∈ a, p y = true) : Precedes p q (a ++ b) := by
  intro pre x post h hx
  rcases List.append_eq_append_iff.1 h with ⟨c, h1, h2⟩ | ⟨c, h1, h2⟩
  · obtain ⟨y, hy, hp⟩ := hm
    exact ⟨y, by rw [h1]; exact List.mem_append_left _ hy, hp⟩
  · cases c with
    | nil =>
      obtain ⟨y, hy, hp⟩ := hm
      exact ⟨y, by rw [h1] at hy; simpa using hy, hp⟩
    | cons y c =>
      simp only [List.cons_append, List.cons.injEq] at h2
      exact ha pre x c (by rw [h1, h2.1]) hx

theorem Markers.append {n : Nat} {es : List Event} (h : Markers n es) (es' : List Event) :
    Markers n (es ++ es') := by
  have up : ∀ p : Event → Bool, (∃ y ∈ es, p y = true) → ∃ y ∈ es ++ es', p y = true := by
    rintro p ⟨y, hy, hp⟩
    exact ⟨y, List.mem_append_left _ hy, hp⟩
  obtain ⟨h2, h4, h5, h7, h8, h9⟩ := h
  exact ⟨fun hn => ⟨up _ (h2 hn).1, up _ (h2 hn).2.1, up _ (h2 hn).2.2⟩,
    fun hn => ⟨up _ (h4 hn).1, up _ (h4 hn).2⟩, fun hn => up _ (h5 hn), fun hn => up _ (h7 hn),
    fun hn => up _ (h8 hn), fun hn => up _ (h9 hn)⟩

/-- Extending a run at stage `n` by effects `es'` that all belong to step `j`
(or to none): the run is at stage `n'` provided `j` is not behind the step of
`n`, stage `n` entitles the run to the schema calls, facades and handle found
in `es'`, and the effects required at `n'` have occurred. -/
theorem Stage.extend {n n' j : Nat} {es es' : List Event} (h : Stage n es)
    (hphase : ∀ e ∈ es', phase e = none ∨ phase e = some j)
    (hle : stagePhase n ≤ j) (hle' : j ≤ stagePhase n') (hmono : stagePhase n ≤ stagePhase n')
    (hschema : (∃ x ∈ es', isSchemaCall x = true) → 2 ≤ n)
    (hfacade : (∃ x ∈ es', isFacade x = true) → 4 ≤ n)
    (hhandle : (∃ x ∈ es', isHandle x = true) → 7 ≤ n)
    (hmark : Markers n' (es ++ es')) : Stage n' (es ++ es') := by
  obtain ⟨⟨hsorted, ho, hc, hp, hm, hk, hv⟩, hmax, hmk⟩ := h
  have none_or : ∀ q : Event → Bool, (∀ x ∈ es', q x = false) ∨ (∃ x ∈ es', q x = true) := by
    intro q
    by_cases hq : ∃ x ∈ es', q x = true
    · exact Or.inr hq
    · refine Or.inl (fun x hx => ?_)
      cases hqx : q x with
      | false => rfl
      | true => exact absurd ⟨x, hx, hqx⟩ hq
  refine ⟨⟨?_, ?_, ?_, ?_, ?_, ?_, ?_⟩, ?_, hmark⟩
  · rw [List.filterMap_append, List.pairwise_append]
    refine ⟨hsorted, ?_, ?_⟩
    · have hall : ∀ a ∈ es'.filterMap phase, a = j := by
        intro a ha
        obtain ⟨e, he, hpe⟩ := List.mem_filterMap.1 ha
        rcases hphase e he with h0 | h0
        · rw [h0] at hpe; cases hpe
        · rw [h0] at hpe; cases hpe; rfl
      exact List.Pairwise.imp_of_mem (R := fun _ _ => True)
        (fun ha hb _ => by rw [hall _ ha, hall _ hb]) (List.pairwise_of_forall (fun _ _ => trivial))
    · intro a ha b hb
      obtain ⟨e, he, hpe⟩ := List.mem_filterMap.1 ha
      obtain ⟨e', he', hpe'⟩ := List.mem_filterMap.1 hb
      have h1 := hmax e he a hpe
      rcases hphase e' he' with h0 | h0
      · rw [h0] at hpe'; cases hpe'
      · rw [h0] at hpe'; cases hpe'
        exact le_trans h1 hle
  · rcases none_or isSchemaCall with hq | hq
    · exact ho.append_of_none hq
    · exact ho.append_of_mem (hmk.1 (hschema hq)).1
  · rcases none_or isSchemaCall with hq | hq
    · exact hc.append_of_none hq
    · exact hc.append_of_mem (hmk.1 (hschema hq)).2.1
  · rcases none_or isSchemaCall with hq | hq
    · exact hp.append_of_none hq
    · exact hp.append_of_mem (hmk.1 (hschema hq)).2.2
  · rcases none_or isFacade with hq | hq
    · exact hm.append_of_none hq
    · exact hm.append_of_mem (hmk.2.1 (hfacade hq)).1
  · rcases none_or isFacade with hq | hq
    · exact hk.append_of_none hq
    · exact hk.append_of_mem (hmk.2.1 (hfacade hq)).2
  · rcases none_or isHandle with hq | hq
    · exact hv.append_of_none hq
    · exact hv.append_of_mem (hmk.2.2.2.1 (hhandle hq))
  · intro e he i hi
    rcases List.mem_append.1 he with he | he
    · exact le_trans (hmax e he i hi) hmono
    · rcases hphase e he with h0 | h0
      · rw [h0] at hi; cases hi
      · rw [h0] at hi; cases hi
        exact hle'

theorem Stage.start : Stage 0 [] := by
  refine ⟨⟨by simp, Precedes.nil _ _, Precedes.nil _ _, Precedes.nil _ _, Precedes.nil _ _,
    Precedes.nil _ _, Precedes.nil _ _⟩, by simp, ?_⟩
  simp [Markers]

theorem phase_of_isSchemaCall {x : Event} (h : isSchemaCall x = true) : phase x = some 2 := by
  cases x <;> first | rfl | simp [isSchemaCall] at h

theorem phase_of_isFacade {x : Event} (h : isFacade x = true) : phase x = some 3 := by
  cases x <;> first | rfl | simp [isFacade] at h

theorem phase_of_isHandle {x : Event} (h : isHandle x = true) : phase x = some 4 := by
  cases x <;> first | rfl | simp [isHandle] at h

/-- Effects that belong to no step leave the stage unchanged. -/
theorem Stage.neutral {n : Nat} {es es' : List Event} (h : Stage n es)
    (hphase : ∀ e ∈ es', phase e = none) : Stage n (es ++ es') := by
  refine h.extend (j := stagePhase n) (fun e he => Or.inl (hphase e he)) le_rfl le_rfl le_rfl
    ?_ ?_ ?_ (h.2.2.append es')
  · rintro ⟨x, hx, hq⟩
    have := phase_of_isSchemaCall hq
    rw [hphase x hx] at this
    cases this
  · rintro ⟨x, hx, hq⟩
    have := phase_of_isFacade hq
    rw [hphase x hx] at this
    cases this
  · rintro ⟨x, hx, hq⟩
    have := phase_of_isHandle hq
    rw [hphase x hx] at this
    cases this

theorem Step.ret_step {α : Type} (t0 : List Event) (n : Nat) (a : α) :
    Step t0 n n (pure a : Boot α) := by
  intro w es hw hs
  exact ⟨es, by simpa using hw, ⟨n, hs⟩, fun _ => hs⟩

theorem Step.bind_step {α β : Type} {t0 : List Event} {n n' n'' : Nat} {m : Boot α}
    {f : α → Boot β} (hm : Step t0 n n' m) (hf : ∀ a, Step t0 n' n'' (f a)) :
    Step t0 n n'' (m >>= f) := by
  intro w es hw hs
  obtain ⟨es1, h1, hj, hret⟩ := hm w es hw hs
  cases hrun : m w with
  | mk o w1 =>
    rw [hrun] at h1 hret
    cases o with
    | ret a =>
      obtain ⟨es2, h2, hj2, hret2⟩ := hf a w1 es1 h1 (hret rfl)
      refine ⟨es2, ?_, hj2, ?_⟩
      · simpa [hrun] using h2
      · simpa [hrun] using hret2
    | fatal format args =>
      refine ⟨es1, ?_, hj, ?_⟩
      · simpa [hrun] using h1
      · simp [hrun, Outcome.returned]

/-- A computation described by its added effects, whatever the effects before
it, is a step as soon as the description extends every run at stage `n`. -/
theorem Step.of_effects {α : Type} {t0 : List Event} {n n' : Nat} {m : Boot α}
    (R : Outcome α → List Event → Prop)
    (hm : ∀ w, ∃ es', (m w).2.trace = w.trace ++ es' ∧ R (m w).1 es')
    (hR : ∀ es o es', Stage n es → R o es' →
      (∃ j, Stage j (es ++ es')) ∧ (o.returned = true → Stage n' (es ++ es'))) :
    Step t0 n n' m := by
  intro w es hw hs
  obtain ⟨es', h1, h2⟩ := hm w
  obtain ⟨h3, h4⟩ := hR es _ es' hs h2
  exact ⟨es ++ es', by rw [h1, hw, List.append_assoc], h3, h4⟩

/-- A computation whose effects belong to no step keeps the stage. -/
theorem Step.of_neutral {α : Type} {t0 : List Event} {n : Nat} {m : Boot α}
    (hm : ∀ w, ∃ es', (m w).2.trace = w.trace ++ es' ∧ ∀ e ∈ es', phase e = none) :
    Step t0 n n m :=
  Step.of_effects (fun _ es' => ∀ e ∈ es', phase e = none) hm
    (fun _ _ _ hs hR => ⟨⟨n, hs.neutral hR⟩, fun _ => hs.neutral hR⟩)

theorem step_Infof (t0 : List Event) (n : Nat) (format : String) (args : List Arg) :
    Step t0 n n (Infof format args) :=
  Step.of_neutral (fun w => ⟨[Event.Infof format args], by simp, by simp [phase]⟩)

theorem step_getStringConfig (t0 : List Event) (n : Nat) (env : Env) (name : String) :
    Step t0 n n (getStringConfig env name) := by
  apply Step.of_neutral
  intro w
  cases h : env.stringConfig name with
  | none =>
    exact ⟨_, by rw [getStringConfig_none env name w h], by simp [phase]⟩
  | some v =>
    exact ⟨_, by rw [getStringConfig_some env name v w h], by simp [phase]⟩

theorem step_getDurationConfig (t0 : List Event) (n : Nat) (env : Env) (name : String) :
    Step t0 n n (getDurationConfig env name) := by
  apply Step.of_neutral
  intro w
  cases h : env.durationConfig name with
  | none =>
    exact ⟨_, by rw [getDurationConfig_none env name w h], by simp [phase]⟩
  | some v =>
    exact ⟨_, by rw [getDurationConfig_some env name v w h], by simp [phase]⟩

theorem step_NewRealTime (t0 : List Event) (n : Nat) : Step t0 n n NewRealTime :=
  Step.of_neutral (fun w => ⟨[Event.NewRealTime], rfl, by simp [phase]⟩)

theorem step_NewUUIDGenerator (t0 : List Event) (n : Nat) : Step t0 n n NewUUIDGenerator :=
  Step.of_neutral (fun w => ⟨[Event.NewUUIDGenerator], rfl, by simp [phase]⟩)

theorem Markers.raise {n n' : Nat} {es es' : List Event} (h : Markers n es)
    (h2 : 2 ≤ n' → n < 2 → (∃ y ∈ es', isOpened y = true) ∧ (∃ y ∈ es', isCreated y = true) ∧
      (∃ y ∈ es', isPooled y = true))
    (h4 : 4 ≤ n' → n < 4 → (∃ y ∈ es', isMigrated y = true) ∧ (∃ y ∈ es', isKeyed y = true))
    (h5 : 5 ≤ n' → n < 5 → ∃ y ∈ es', isFacade y = true)
    (h7 : 7 ≤ n' → n < 7 → ∃ y ∈ es', isProvisioned y = true)
    (h8 : 8 ≤ n' → n < 8 → ∃ y ∈ es', isHandle y = true)
    (h9 : 9 ≤ n' → n < 9 → ∃ y ∈ es', isClient y = true) : Markers n' (es ++ es') := by
  have l : ∀ p : Event → Bool, (∃ y ∈ es, p y = true) → ∃ y ∈ es ++ es', p y = true := by
    rintro p ⟨y, hy, hp⟩
    exact ⟨y, List.mem_append_left _ hy, hp⟩
  have r : ∀ p : Event → Bool, (∃ y ∈ es', p y = true) → ∃ y ∈ es ++ es', p y = true := by
    rintro p ⟨y, hy, hp⟩
    exact ⟨y, List.mem_append_right _ hy, hp⟩
  obtain ⟨g2, g4, g5, g7, g8, g9⟩ := h
  refine ⟨fun hn => ?_, fun hn => ?_, fun hn => ?_, fun hn => ?_, fun hn => ?_, fun hn => ?_⟩
  · by_cases hlt : n < 2
    · exact ⟨r _ (h2 hn hlt).1, r _ (h2 hn hlt).2.1, r _ (h2 hn hlt).2.2⟩
    · have := g2 (Nat.le_of_not_lt hlt)
      exact ⟨l _ this.1, l _ this.2.1, l _ this.2.2⟩
  · by_cases hlt : n < 4
    · exact ⟨r _ (h4 hn hlt).1, r _ (h4 hn hlt).2⟩
    · have := g4 (Nat.le_of_not_lt hlt)
      exact ⟨l _ this.1, l _ this.2⟩
  · by_cases hlt : n < 5
    · exact r _ (h5 hn hlt)
    · exact l _ (g5 (Nat.le_of_not_lt hlt))
  · by_cases hlt : n < 7
    · exact r _ (h7 hn hlt)
    · exact l _ (g7 (Nat.le_of_not_lt hlt))
  · by_cases hlt : n < 8
    · exact r _ (h8 hn hlt)
    · exact l _ (g8 (Nat.le_of_not_lt hlt))
  · by_cases hlt : n < 9
    · exact r _ (h9 hn hlt)
    · exact l _ (g9 (Nat.le_of_not_lt hlt))

theorem isConnEvent_phase {e : Event} (h : isConnEvent e = true) :
    phase e = none ∨ phase e = some 1 := by
  cases e <;> first | exact Or.inl rfl | exact Or.inr rfl | simp [isConnEvent] at h

/-- The stages of `initDBClient`: from the start to "schema in place". -/
theorem step_initDBClient (t0 : List Event) (env : Env) (timeout : Nat) :
    Step t0 0 4 (initDBClient env timeout) := by
  intro w es hw hs
  obtain ⟨es1, tail, hrun, hconn, hcase⟩ := initDBClient_spec env timeout w
  refine ⟨es ++ (es1 ++ tail), by rw [hrun]; simp [hw], ?_⟩
  have s1 : ∀ extra : List Event, (∀ e ∈ extra, phase e = none ∨ phase e = some 1) →
      Stage 1 (es ++ (es1 ++ extra)) := by
    intro extra hextra
    have hall : ∀ e ∈ es1 ++ extra, phase e = none ∨ phase e = some 1 := by
      intro e he
      rcases List.mem_append.1 he with he | he
      · exact isConnEvent_phase (hconn e he)
      · exact hextra e he
    refine hs.extend (j := 1) hall (by decide) (by decide) (by decide) ?_ ?_ ?_ ?_
    · rintro ⟨x, hx, hq⟩
      have := phase_of_isSchemaCall hq
      rcases hall x hx with h | h <;> rw [h] at this <;> cases this
    · rintro ⟨x, hx, hq⟩
      have := phase_of_isFacade hq
      rcases hall x hx with h | h <;> rw [h] at this <;> cases this
    · rintro ⟨x, hx, hq⟩
      have := phase_of_isHandle hq
      rcases hall x hx with h | h <;> rw [h] at this <;> cases this
    · exact hs.2.2.raise (by omega) (by omega) (by omega) (by omega) (by omega) (by omega)
  rcases hcase with ⟨htail, format, args, es0, hout, _, _, _⟩ | ⟨hconnected, _, hcase⟩
  · subst htail
    refine ⟨⟨1, s1 [] (by simp)⟩, ?_⟩
    rw [hout]
    simp [Outcome.returned]
  · obtain ⟨⟨d, dsn, hopen⟩, ⟨r, hexec⟩, _⟩ := hconnected
    have s2 : ∀ arg, Stage 2 (es ++ (es1 ++ [Event.gormOpen "mysql" arg none])) := by
      intro arg
      have h1 := s1 [Event.gormOpen "mysql" arg none] (by simp [phase])
      refine ⟨h1.1, h1.2.1, ?_⟩
      refine hs.2.2.raise (fun _ _ => ⟨⟨_, List.mem_append_left _ hopen, rfl⟩,
        ⟨_, List.mem_append_left _ hexec, by simp [isCreated]⟩,
        ⟨_, List.mem_append_right _ (List.mem_singleton_self _), rfl⟩⟩)
        (by omega) (by omega) (by omega) (by omega) (by omega)
    rcases hcase with ⟨arg, e, ht, hout⟩ | ⟨arg, e, ht, hout⟩ | ⟨arg, e, ht, hout⟩ |
      ⟨arg, ht, hout⟩
    · subst ht
      refine ⟨⟨1, s1 _ (by simp [phase])⟩, ?_⟩
      rw [hout]
      simp [Outcome.returned]
    · subst ht
      have h3 : Stage 3 (es ++ (es1 ++ [Event.gormOpen "mysql" arg none]) ++
          [Event.AutoMigrate models (some e),
            Event.Fatalf "Failed to initialize the databases." []]) := by
        refine (s2 arg).extend (j := 2) (by simp [phase]) (by decide) (by decide) (by decide)
          (fun _ => le_rfl) (by simp [isFacade]) (by simp [isHandle]) ?_
        exact (s2 arg).2.2.raise (by omega) (by omega) (by omega) (by omega) (by omega)
          (by omega)
      refine ⟨⟨3, by simpa using h3⟩, ?_⟩
      rw [hout]
      simp [Outcome.returned]
    · subst ht
      have h3 : Stage 3 (es ++ (es1 ++ [Event.gormOpen "mysql" arg none]) ++
          [Event.AutoMigrate models none, foreignKey (some e),
            Event.Fatalf
              "Failed to create a foreign key for RunID in run_metrics table. Error: %s"
              [Arg.err (some e)]]) := by
        refine (s2 arg).extend (j := 2) (by simp [phase, foreignKey]) (by decide) (by decide)
          (by decide) (fun _ => le_rfl) (by simp [isFacade, foreignKey])
          (by simp [isHandle, foreignKey]) ?_
        exact (s2 arg).2.2.raise (by omega) (by omega) (by omega) (by omega) (by omega)
          (by omega)
      refine ⟨⟨3, by simpa using h3⟩, ?_⟩
      rw [hout]
      simp [Outcome.returned]
    · subst ht
      have h4 : Stage 4 (es ++ (es1 ++ [Event.gormOpen "mysql" arg none]) ++
          [Event.AutoMigrate models none, foreignKey none, Event.NewDB]) := by
        refine (s2 arg).extend (j := 2) (by simp [phase, foreignKey]) (by decide) (by decide)
          (by decide) (fun _ => le_rfl) (by simp [isFacade, foreignKey])
          (by simp [isHandle, foreignKey]) ?_
        exact (s2 arg).2.2.raise (by omega)
          (fun _ _ => ⟨⟨Event.AutoMigrate models none, by simp, by simp [isMigrated]⟩,
            ⟨foreignKey none, by simp, by simp [isKeyed]⟩⟩)
          (by omega) (by omega) (by omega) (by omega)
      exact ⟨⟨4, by simpa using h4⟩, fun _ => by simpa using h4⟩

/-- A computation whose effects all belong to step `j` (or to none) takes a run
from stage `n` to stage `n'` when it returns, and to stage `kf` when it ends
the process. -/
theorem Step.of_phase {α : Type} {t0 : List Event} {m : Boot α} (n n' kf j : Nat)
    (h1 : stagePhase n ≤ j) (h2 : j ≤ stagePhase n') (h3 : j ≤ stagePhase kf)
    (hm : ∀ w, ∃ es', (m w).2.trace = w.trace ++ es' ∧
      (∀ e ∈ es', phase e = none ∨ phase e = some j) ∧
      ((∃ x ∈ es', isSchemaCall x = true) → 2 ≤ n) ∧
      ((∃ x ∈ es', isFacade x = true) → 4 ≤ n) ∧
      ((∃ x ∈ es', isHandle x = true) → 7 ≤ n) ∧
      (∀ es, Markers n es → Markers kf (es ++ es') ∧
        ((m w).1.returned = true → Markers n' (es ++ es')))) :
    Step t0 n n' m := by
  intro w es hw hs
  obtain ⟨es', htr, hph, hs2, hs3, hs4, hmk⟩ := hm w
  refine ⟨es ++ es', by rw [htr, hw, List.append_assoc], ⟨kf, ?_⟩, fun hret => ?_⟩
  · exact hs.extend hph h1 h3 (le_trans h1 h3) hs2 hs3 hs4 (hmk es hs.2.2).1
  · exact hs.extend hph h1 h2 (le_trans h1 h2) hs2 hs3 hs4 ((hmk es hs.2.2).2 hret)

/-- The construction of a store facade, at stage 4 or 5, leads to stage 5. -/
theorem Step.facade {α : Type} {t0 : List Event} {m : Boot α} (n : Nat) (e : Event)
    (hn : 4 ≤ n) (hn' : n ≤ 5) (he : isFacade e = true)
    (hm : ∀ w, (m w).2.trace = w.trace ++ [e]) : Step t0 n 5 m := by
  have hp : stagePhase n ≤ 3 := by
    interval_cases n <;> decide
  refine Step.of_phase n 5 5 3 hp (by decide) (by decide) (fun w => ⟨[e], hm w, ?_, ?_, ?_, ?_, ?_⟩)
  · intro x hx
    rw [List.mem_singleton.1 hx]
    exact Or.inr (phase_of_isFacade he)
  · rintro ⟨x, hx, hq⟩
    rw [List.mem_singleton.1 hx] at hq
    have h1 := phase_of_isSchemaCall hq
    rw [phase_of_isFacade he] at h1
    cases h1
  · intro _
    exact hn
  · rintro ⟨x, hx, hq⟩
    rw [List.mem_singleton.1 hx] at hq
    have h1 := phase_of_isHandle hq
    rw [phase_of_isFacade he] at h1
    cases h1
  · intro es hmk
    have : Markers 5 (es ++ [e]) :=
      hmk.raise (by omega) (by omega) (fun _ _ => ⟨e, by simp, he⟩) (by omega) (by omega)
        (by omega)
    exact ⟨this, fun _ => this⟩

theorem step_CreateMinioClientOrFatal (t0 : List Event) (env : Env)
    (host port accessKey secretKey : String) (timeout : Nat) :
    Step t0 5 6 (CreateMinioClientOrFatal env host port accessKey secretKey timeout) := by
  refine Step.of_phase 5 6 6 4 (by decide) (by decide) (by decide) (fun w => ?_)
  have hmk : ∀ (es es' : List Event), Markers 5 es → Markers 6 (es ++ es') :=
    fun es es' h => h.raise (by omega) (by omega) (by omega) (by omega) (by omega) (by omega)
  cases h : env.minioClient w.trace with
  | some c =>
    refine ⟨[Event.CreateMinioClient host port accessKey secretKey timeout true], ?_, ?_, ?_, ?_,
      ?_, fun es hm => ⟨hmk es _ hm, fun _ => hmk es _ hm⟩⟩
    · simp [CreateMinioClientOrFatal, h]
    · simp [phase]
    · simp [isSchemaCall]
    · simp [isFacade]
    · simp [isHandle]
  | none =>
    refine ⟨[Event.CreateMinioClient host port accessKey secretKey timeout false,
        Event.Fatalf "Failed to create Minio client. Error: %v" []], ?_, ?_, ?_, ?_,
      ?_, fun es hm => ⟨hmk es _ hm, fun _ => hmk es _ hm⟩⟩
    · simp [CreateMinioClientOrFatal, h]
    · simp [phase]
    · simp [isSchemaCall]
    · simp [isFacade]
    · simp [isHandle]

theorem step_createMinioBucket (t0 : List Event) (c : MinioClient) (bucketName : String) :
    Step t0 6 7 (createMinioBucket c bucketName) := by
  refine Step.of_phase 6 7 6 4 (by decide) (by decide) (by decide) (fun w => ?_)
  have hmk6 : ∀ (es es' : List Event), Markers 6 es → Markers 6 (es ++ es') :=
    fun es es' h => h.append es'
  have hmk7 : ∀ (es es' : List Event), Markers 6 es →
      Event.Infof "Successfully created bucket %s\n" [Arg.str bucketName] ∈ es' →
      Markers 7 (es ++ es') :=
    fun es es' h hmem => h.raise (by omega) (by omega) (by omega)
      (fun _ _ => ⟨_, hmem, by simp [isProvisioned]⟩) (by omega) (by omega)
  cases h : (c.makeBucket bucketName "" w.buckets).1 with
  | none =>
    rw [createMinioBucket_made c bucketName w h]
    exact ⟨_, rfl, by simp [phase], by simp [isSchemaCall], by simp [isFacade],
      by simp [isHandle], fun es hm => ⟨hmk6 es _ hm, fun _ => hmk7 es _ hm (by simp)⟩⟩
  | some e =>
    by_cases hb : (c.bucketExists bucketName (c.makeBucket bucketName "" w.buckets).2).1
        = (true, none)
    · rw [createMinioBucket_owned c bucketName w e h hb]
      exact ⟨_, rfl, by simp [phase], by simp [isSchemaCall], by simp [isFacade],
        by simp [isHandle], fun es hm => ⟨hmk6 es _ hm, fun _ => hmk7 es _ hm (by simp)⟩⟩
    · rw [createMinioBucket_failed c bucketName w e h hb]
      exact ⟨_, rfl, by simp [phase], by simp [isSchemaCall], by simp [isFacade],
        by simp [isHandle], fun es hm => ⟨hmk6 es _ hm, fun hr => by
          simp [Outcome.returned] at hr⟩⟩

theorem step_NewMinioObjectStore (t0 : List Event) (bucketName : String) :
    Step t0 7 8 (NewMinioObjectStore bucketName) := by
  refine Step.of_phase 7 8 8 4 (by decide) (by decide) (by decide) (fun w => ?_)
  have hmk : ∀ es : List Event, Markers 7 es →
      Markers 8 (es ++ [Event.NewMinioObjectStore bucketName]) :=
    fun es h => h.raise (by omega) (by omega) (by omega) (by omega)
      (fun _ _ => ⟨_, List.mem_singleton_self _, rfl⟩) (by omega)
  exact ⟨[Event.NewMinioObjectStore bucketName], rfl, by simp [phase], by simp [isSchemaCall],
    by simp [isFacade], fun _ => le_rfl, fun es hm => ⟨hmk es hm, fun _ => hmk es hm⟩⟩

/-- The stages of `initMinioClient`: from the facades to the built handle. -/
theorem step_initMinioClient (t0 : List Event) (env : Env) (timeout : Nat) :
    Step t0 5 8 (initMinioClient env timeout) := by
  unfold initMinioClient
  refine Step.bind_step (step_getStringConfig t0 5 env _) (fun _ => ?_)
  refine Step.bind_step (step_getStringConfig t0 5 env _) (fun _ => ?_)
  refine Step.bind_step (step_getStringConfig t0 5 env _) (fun _ => ?_)
  refine Step.bind_step (step_getStringConfig t0 5 env _) (fun _ => ?_)
  refine Step.bind_step (step_getStringConfig t0 5 env _) (fun _ => ?_)
  refine Step.bind_step (step_CreateMinioClientOrFatal t0 env _ _ _ _ _) (fun _ => ?_)
  refine Step.bind_step (step_createMinioBucket t0 _ _) (fun _ => ?_)
  exact step_NewMinioObjectStore t0 _

theorem step_CreateWorkflowClientOrFatal (t0 : List Event) (env : Env) (ns : String)
    (timeout : Nat) : Step t0 8 9 (CreateWorkflowClientOrFatal env ns timeout) := by
  refine Step.of_phase 8 9 9 5 (by decide) (by decide) (by decide) (fun w => ?_)
  have hmk : ∀ (es es' : List Event), Markers 8 es →
      Event.CreateWorkflowClient ns timeout (env.workflowClient w.trace) ∈ es' →
      Markers 9 (es ++ es') :=
    fun es es' h hmem => h.raise (by omega) (by omega) (by omega) (by omega) (by omega)
      (fun _ _ => ⟨_, hmem, rfl⟩)
  cases h : env.workflowClient w.trace with
  | true =>
    refine ⟨[Event.CreateWorkflowClient ns timeout true], ?_, ?_, ?_, ?_, ?_,
      fun es hm => ⟨hmk es _ hm (by simp [h]), fun _ => hmk es _ hm (by simp [h])⟩⟩
    · simp [CreateWorkflowClientOrFatal, h]
    · simp [phase]
    · simp [isSchemaCall]
    · simp [isFacade]
    · simp [isHandle]
  | false =>
    refine ⟨[Event.CreateWorkflowClient ns timeout false,
        Event.Fatalf "Failed to create workflow client. Error: %v" []], ?_, ?_, ?_, ?_, ?_,
      fun es hm => ⟨hmk es _ hm (by simp [h]), fun _ => hmk es _ hm (by simp [h])⟩⟩
    · simp [CreateWorkflowClientOrFatal, h]
    · simp [phase]
    · simp [isSchemaCall]
    · simp [isFacade]
    · simp [isHandle]

theorem step_CreateScheduledWorkflowClientOrFatal (t0 : List Event) (env : Env) (ns : String)
    (timeout : Nat) : Step t0 9 9 (CreateScheduledWorkflowClientOrFatal env ns timeout) := by
  refine Step.of_phase 9 9 9 5 (by decide) (by decide) (by decide) (fun w => ?_)
  have hmk : ∀ (es es' : List Event), Markers 9 es → Markers 9 (es ++ es') :=
    fun es es' h => h.append es'
  cases h : env.scheduledWorkflowClient w.trace with
  | true =>
    refine ⟨[Event.CreateScheduledWorkflowClient ns timeout true], ?_, ?_, ?_, ?_, ?_,
      fun es hm => ⟨hmk es _ hm, fun _ => hmk es _ hm⟩⟩
    · simp [CreateScheduledWorkflowClientOrFatal, h]
    · simp [phase]
    · simp [isSchemaCall]
    · simp [isFacade]
    · simp [isHandle]
  | false =>
    refine ⟨[Event.CreateScheduledWorkflowClient ns timeout false,
        Event.Fatalf "Failed to create scheduled workflow client. Error: %v" []], ?_, ?_, ?_, ?_,
      ?_, fun es hm => ⟨hmk es _ hm, fun _ => hmk es _ hm⟩⟩
    · simp [CreateScheduledWorkflowClientOrFatal, h]
    · simp [phase]
    · simp [isSchemaCall]
    · simp [isFacade]
    · simp [isHandle]

/-- The stages of `init`: from the start to the orchestration clients. -/
theorem step_init (t0 : List Event) (env : Env) (c : ClientManager) :
    Step t0 0 9 (ClientManager.init env c) := by
  unfold ClientManager.init
  refine Step.bind_step (step_Infof t0 0 _ _) (fun _ => ?_)
  refine Step.bind_step (step_getDurationConfig t0 0 env _) (fun _ => ?_)
  refine Step.bind_step (step_initDBClient t0 env _) (fun db => ?_)
  refine Step.bind_step (step_NewRealTime t0 4) (fun _ => ?_)
  refine Step.bind_step (step_NewUUIDGenerator t0 4) (fun _ => ?_)
  refine Step.bind_step (Step.facade 4 Event.NewExperimentStore le_rfl (by decide) rfl
    (fun _ => rfl)) (fun _ => ?_)
  refine Step.bind_step (Step.facade 5 Event.NewPipelineStore (by decide) le_rfl rfl
    (fun _ => rfl)) (fun _ => ?_)
  refine Step.bind_step (Step.facade 5 Event.NewJobStore (by decide) le_rfl rfl
    (fun _ => rfl)) (fun _ => ?_)
  refine Step.bind_step (Step.facade 5 Event.NewRunStore (by decide) le_rfl rfl
    (fun _ => rfl)) (fun _ => ?_)
  refine Step.bind_step (Step.facade 5 Event.NewResourceReferenceStore (by decide) le_rfl rfl
    (fun _ => rfl)) (fun _ => ?_)
  refine Step.bind_step (step_getDurationConfig t0 5 env _) (fun _ => ?_)
  refine Step.bind_step (step_initMinioClient t0 env _) (fun _ => ?_)
  refine Step.bind_step (step_getStringConfig t0 8 env _) (fun _ => ?_)
  refine Step.bind_step (step_getDurationConfig t0 8 env _) (fun _ => ?_)
  refine Step.bind_step (step_CreateWorkflowClientOrFatal t0 env _ _) (fun _ => ?_)
  refine Step.bind_step (step_getStringConfig t0 9 env _) (fun _ => ?_)
  refine Step.bind_step (step_getDurationConfig t0 9 env _) (fun _ => ?_)
  refine Step.bind_step (step_CreateScheduledWorkflowClientOrFatal t0 env _ _) (fun _ => ?_)
  refine Step.bind_step (step_Infof t0 9 _ _) (fun _ => ?_)
  exact Step.ret_step t0 9 _

/-! ## Complete construction or termination -/

theorem Sane.ret_sane {α : Type} (a : α) : Sane (pure a : Boot α) :=
  fun w => ⟨[], by simp, Or.inl ⟨a, rfl, by simp⟩⟩

theorem Sane.bind_sane {α β : Type} {m : Boot α} {f : α → Boot β} (hm : Sane m)
    (hf : ∀ a, Sane (f a)) : Sane (m >>= f) := by
  intro w
  obtain ⟨es1, h1, hcase⟩ := hm w
  cases hrun : m w with
  | mk o w1 =>
    rw [hrun] at h1 hcase
    rcases hcase with ⟨a, ho, hnf⟩ | ⟨format, args, es0, ho, hes, hnf⟩
    · simp only at ho h1
      subst ho
      obtain ⟨es2, h2, hcase2⟩ := hf a w1
      refine ⟨es1 ++ es2, by simp [hrun, h2, h1], ?_⟩
      rcases hcase2 with ⟨b, ho2, hnf2⟩ | ⟨format, args, es0, ho2, hes2, hnf2⟩
      · refine Or.inl ⟨b, by simp [hrun, ho2], ?_⟩
        intro e he
        rcases List.mem_append.1 he with he | he
        · exact hnf e he
        · exact hnf2 e he
      · refine Or.inr ⟨format, args, es1 ++ es0, by simp [hrun, ho2], by simp [hes2], ?_⟩
        intro e he
        rcases List.mem_append.1 he with he | he
        · exact hnf e he
        · exact hnf2 e he
    · simp only at ho h1
      subst ho
      exact ⟨es1, by simp [hrun, h1], Or.inr ⟨format, args, es0, by simp [hrun], hes, hnf⟩⟩

/-- A computation that returns after effects none of which is a `Fatalf`. -/
theorem Sane.of_ret {α : Type} {m : Boot α}
    (h : ∀ w, ∃ es a, (m w).2.trace = w.trace ++ es ∧ (m w).1 = Outcome.ret a ∧
      ∀ e ∈ es, isFatalf e = false) : Sane m := by
  intro w
  obtain ⟨es, a, h1, h2, h3⟩ := h w
  exact ⟨es, h1, Or.inl ⟨a, h2, h3⟩⟩

theorem Sane.of_Fatalf {α : Type} (format : String) (args : List Arg) :
    Sane (Fatalf format args : Boot α) :=
  fun w => ⟨[Event.Fatalf format args], rfl, Or.inr ⟨format, args, [], rfl, rfl, by simp⟩⟩

theorem Sane.of_emit (e : Event) (he : isFatalf e = false) : Sane (emit e) :=
  Sane.of_ret (fun w => ⟨[e], (), rfl, rfl, by simpa using he⟩)

theorem sane_getStringConfig (env : Env) (name : String) : Sane (getStringConfig env name) := by
  unfold getStringConfig
  refine Sane.bind_sane (Sane.of_emit _ rfl) (fun _ => ?_)
  cases env.stringConfig name with
  | none => exact Sane.of_Fatalf _ _
  | some v => exact Sane.ret_sane v

theorem sane_getDurationConfig (env : Env) (name : String) :
    Sane (getDurationConfig env name) := by
  unfold getDurationConfig
  refine Sane.bind_sane (Sane.of_emit _ rfl) (fun _ => ?_)
  cases env.durationConfig name with
  | none => exact Sane.of_Fatalf _ _
  | some v => exact Sane.ret_sane v

theorem sane_initDBClient (env : Env) (timeout : Nat) : Sane (initDBClient env timeout) := by
  intro w
  obtain ⟨es1, tail, hrun, _, hcase⟩ := initDBClient_spec env timeout w
  refine ⟨es1 ++ tail, by rw [hrun], ?_⟩
  rcases hcase with ⟨htail, format, args, es0, hout, hes, hnf, _⟩ | ⟨⟨_, _, hnf⟩, _, hcase⟩
  · subst htail
    exact Or.inr ⟨format, args, es0, hout, by simp [hes], hnf⟩
  · have hnf2 : ∀ (pre : List Event), (∀ e ∈ pre, isFatalf e = false) →
        ∀ e ∈ es1 ++ pre, isFatalf e = false := by
      intro pre hpre e he
      rcases List.mem_append.1 he with he | he
      · exact hnf e he
      · exact hpre e he
    rcases hcase with ⟨arg, e, ht, hout⟩ | ⟨arg, e, ht, hout⟩ | ⟨arg, e, ht, hout⟩ |
      ⟨arg, ht, hout⟩
    · subst ht
      exact Or.inr ⟨_, _, es1 ++ [Event.gormOpen "mysql" arg (some e)], hout, by simp,
        hnf2 _ (by simp [isFatalf])⟩
    · subst ht
      exact Or.inr ⟨_, _, es1 ++ [Event.gormOpen "mysql" arg none,
        Event.AutoMigrate models (some e)], hout, by simp, hnf2 _ (by simp [isFatalf])⟩
    · subst ht
      exact Or.inr ⟨_, _, es1 ++ [Event.gormOpen "mysql" arg none,
        Event.AutoMigrate models none, foreignKey (some e)], hout, by simp,
        hnf2 _ (by simp [isFatalf, foreignKey])⟩
    · subst ht
      exact Or.inl ⟨_, hout, hnf2 _ (by simp [isFatalf, foreignKey])⟩

theorem sane_createMinioBucket (c : MinioClient) (bucketName : String) :
    Sane (createMinioBucket c bucketName) := by
  intro w
  cases h : (c.makeBucket bucketName "" w.buckets).1 with
  | none =>
    rw [createMinioBucket_made c bucketName w h]
    exact ⟨_, rfl, Or.inl ⟨(), rfl, by simp [isFatalf]⟩⟩
  | some e =>
    by_cases hb : (c.bucketExists bucketName (c.makeBucket bucketName "" w.buckets).2).1
        = (true, none)
    · rw [createMinioBucket_owned c bucketName w e h hb]
      exact ⟨_, rfl, Or.inl ⟨(), rfl, by simp [isFatalf]⟩⟩
    · rw [createMinioBucket_failed c bucketName w e h hb]
      exact ⟨_, rfl, Or.inr ⟨_, _, [Event.MakeBucket bucketName "" (some e),
        Event.BucketExists bucketName
          (c.bucketExists bucketName (c.makeBucket bucketName "" w.buckets).2).1.1
          (c.bucketExists bucketName (c.makeBucket bucketName "" w.buckets).2).1.2],
        rfl, rfl, by simp [isFatalf]⟩⟩

theorem sane_CreateMinioClientOrFatal (env : Env) (host port accessKey secretKey : String)
    (timeout : Nat) : Sane (CreateMinioClientOrFatal env host port accessKey secretKey timeout) := by
  intro w
  cases h : env.minioClient w.trace with
  | some c =>
    exact ⟨[Event.CreateMinioClient host port accessKey secretKey timeout true],
      by simp [CreateMinioClientOrFatal, h],
      Or.inl ⟨c, by simp [CreateMinioClientOrFatal, h], by simp [isFatalf]⟩⟩
  | none =>
    exact ⟨[Event.CreateMinioClient host port accessKey secretKey timeout false,
        Event.Fatalf "Failed to create Minio client. Error: %v" []],
      by simp [CreateMinioClientOrFatal, h],
      Or.inr ⟨_, _, [Event.CreateMinioClient host port accessKey secretKey timeout false],
        by simp [CreateMinioClientOrFatal, h], rfl, by simp [isFatalf]⟩⟩

theorem sane_initMinioClient (env : Env) (timeout : Nat) : Sane (initMinioClient env timeout) := by
  unfold initMinioClient
  refine Sane.bind_sane (sane_getStringConfig env _) (fun _ => ?_)
  refine Sane.bind_sane (sane_getStringConfig env _) (fun _ => ?_)
  refine Sane.bind_sane (sane_getStringConfig env _) (fun _ => ?_)
  refine Sane.bind_sane (sane_getStringConfig env _) (fun _ => ?_)
  refine Sane.bind_sane (sane_getStringConfig env _) (fun _ => ?_)
  refine Sane.bind_sane (sane_CreateMinioClientOrFatal env _ _ _ _ _) (fun _ => ?_)
  refine Sane.bind_sane (sane_createMinioBucket _ _) (fun _ => ?_)
  exact Sane.of_ret (fun w => ⟨_, _, rfl, rfl, by simp [isFatalf]⟩)

theorem sane_CreateWorkflowClientOrFatal (env : Env) (ns : String) (timeout : Nat) :
    Sane (CreateWorkflowClientOrFatal env ns timeout) := by
  intro w
  cases h : env.workflowClient w.trace with
  | true =>
    exact ⟨[Event.CreateWorkflowClient ns timeout true],
      by simp [CreateWorkflowClientOrFatal, h],
      Or.inl ⟨{ ns := ns }, by simp [CreateWorkflowClientOrFatal, h], by simp [isFatalf]⟩⟩
  | false =>
    exact ⟨[Event.CreateWorkflowClient ns timeout false,
        Event.Fatalf "Failed to create workflow client. Error: %v" []],
      by simp [CreateWorkflowClientOrFatal, h],
      Or.inr ⟨_, _, [Event.CreateWorkflowClient ns timeout false],
        by simp [CreateWorkflowClientOrFatal, h], rfl, by simp [isFatalf]⟩⟩

theorem sane_CreateScheduledWorkflowClientOrFatal (env : Env) (ns : String) (timeout : Nat) :
    Sane (CreateScheduledWorkflowClientOrFatal env ns timeout) := by
  intro w
  cases h : env.scheduledWorkflowClient w.trace with
  | true =>
    exact ⟨[Event.CreateScheduledWorkflowClient ns timeout true],
      by simp [CreateScheduledWorkflowClientOrFatal, h],
      Or.inl ⟨{ ns := ns }, by simp [CreateScheduledWorkflowClientOrFatal, h],
        by simp [isFatalf]⟩⟩
  | false =>
    exact ⟨[Event.CreateScheduledWorkflowClient ns timeout false,
        Event.Fatalf "Failed to create scheduled workflow client. Error: %v" []],
      by simp [CreateScheduledWorkflowClientOrFatal, h],
      Or.inr ⟨_, _, [Event.CreateScheduledWorkflowClient ns timeout false],
        by simp [CreateScheduledWorkflowClientOrFatal, h], rfl, by simp [isFatalf]⟩⟩

theorem sane_init (env : Env) (c : ClientManager) : Sane (ClientManager.init env c) := by
  unfold ClientManager.init
  refine Sane.bind_sane (Sane.of_emit _ rfl) (fun _ => ?_)
  refine Sane.bind_sane (sane_getDurationConfig env _) (fun _ => ?_)
  refine Sane.bind_sane (sane_initDBClient env _) (fun db => ?_)
  refine Sane.bind_sane (Sane.of_ret (fun w => ⟨[Event.NewRealTime], _, rfl, rfl, by simp [isFatalf]⟩))
    (fun _ => ?_)
  refine Sane.bind_sane (Sane.of_ret (fun w => ⟨[Event.NewUUIDGenerator], _, rfl, rfl,
    by simp [isFatalf]⟩)) (fun _ => ?_)
  refine Sane.bind_sane (Sane.of_ret (fun w => ⟨[Event.NewExperimentStore], _, rfl, rfl,
    by simp [isFatalf]⟩)) (fun _ => ?_)
  refine Sane.bind_sane (Sane.of_ret (fun w => ⟨[Event.NewPipelineStore], _, rfl, rfl,
    by simp [isFatalf]⟩)) (fun _ => ?_)
  refine Sane.bind_sane (Sane.of_ret (fun w => ⟨[Event.NewJobStore], _, rfl, rfl,
    by simp [isFatalf]⟩)) (fun _ => ?_)
  refine Sane.bind_sane (Sane.of_ret (fun w => ⟨[Event.NewRunStore], _, rfl, rfl,
    by simp [isFatalf]⟩)) (fun _ => ?_)
  refine Sane.bind_sane (Sane.of_ret (fun w => ⟨[Event.NewResourceReferenceStore], _, rfl, rfl,
    by simp [isFatalf]⟩)) (fun _ => ?_)
  refine Sane.bind_sane (sane_getDurationConfig env _) (fun _ => ?_)
  refine Sane.bind_sane (sane_initMinioClient env _) (fun _ => ?_)
  refine Sane.bind_sane (sane_getStringConfig env _) (fun _ => ?_)
  refine Sane.bind_sane (sane_getDurationConfig env _) (fun _ => ?_)
  refine Sane.bind_sane (sane_CreateWorkflowClientOrFatal env _ _) (fun _ => ?_)
  refine Sane.bind_sane (sane_getStringConfig env _) (fun _ => ?_)
  refine Sane.bind_sane (sane_getDurationConfig env _) (fun _ => ?_)
  refine Sane.bind_sane (sane_CreateScheduledWorkflowClientOrFatal env _ _) (fun _ => ?_)
  refine Sane.bind_sane (Sane.of_emit _ rfl) (fun _ => ?_)
  exact Sane.ret_sane _

theorem Returns.ret_returns {α : Type} {P : α → Prop} (a : α) (h : P a) :
    Returns (pure a : Boot α) P := by
  intro w b hb
  simp only [pure_run, Outcome.ret.injEq] at hb
  exact hb ▸ h

theorem Returns.bind_returns {α β : Type} {m : Boot α} {f : α → Boot β} {P : β → Prop}
    (hf : ∀ a, Returns (f a) P) : Returns (m >>= f) P := by
  intro w b hb
  rw [bind_run] at hb
  cases hrun : m w with
  | mk o w1 =>
    rw [hrun] at hb
    cases o with
    | ret a => exact hf a w1 b hb
    | fatal format args => cases hb

/-- Whatever `init` returns has all eleven fields set. -/
theorem returns_init (env : Env) (c : ClientManager) :
    Returns (ClientManager.init env c) ClientManager.AllSet := by
  unfold ClientManager.init
  repeat' (refine Returns.bind_returns (fun _ => ?_))
  exact Returns.ret_returns _ ⟨rfl, rfl, rfl, rfl, rfl, rfl, rfl, rfl, rfl, rfl, rfl⟩

/-- Every run of `init`, with its effects counted from the world it started
in: it ends in some stage, and in stage 9 when it returns. -/
theorem init_stage (env : Env) (c : ClientManager) (w : World) :
    (∃ j, Stage j (newEvents (ClientManager.init env c) w)) ∧
    ((ClientManager.init env c w).1.returned = true →
      Stage 9 (newEvents (ClientManager.init env c) w)) := by
  obtain ⟨es, htr, hj, hret⟩ := step_init w.trace env c w [] (by simp) Stage.start
  rw [newEvents_of_trace _ _ _ htr]
  exact ⟨hj, hret⟩

/-- C7.  For every combination of outcomes of the bootstrap steps,
`newClientManager` either returns a `ClientManager` whose eleven fields are all
set, from a run without any `Fatalf` call in which every step left its success
effect, or it ends the process, the `Fatalf` call being the last effect of the
run; a run with a `Fatalf` call never returns a manager. -/
theorem newClientManager_complete_or_fatal (env : Env) (w : World) :
    (∃ c, (newClientManager env w).1 = Outcome.ret c ∧ c.AllSet ∧
      (∀ e ∈ newEvents (newClientManager env) w, isFatalf e = false) ∧
      Markers 9 (newEvents (newClientManager env) w)) ∨
    (∃ format args es0, (newClientManager env w).1 = Outcome.fatal format args ∧
      newEvents (newClientManager env) w = es0 ++ [Event.Fatalf format args] ∧
      ∀ e ∈ es0, isFatalf e = false) := by
  obtain ⟨es, htr, hcase⟩ := sane_init env ClientManager.zero w
  have hes : newEvents (newClientManager env) w = es := newEvents_of_trace _ _ _ htr
  rcases hcase with ⟨c, hout, hnf⟩ | ⟨format, args, es0, hout, hes0, hnf⟩
  · refine Or.inl ⟨c, hout, returns_init env ClientManager.zero w c hout, by rw [hes]; exact hnf,
      ?_⟩
    have := (init_stage env ClientManager.zero w).2 (by rw [hout]; rfl)
    exact this.2.2
  · exact Or.inr ⟨format, args, es0, hout, by rw [hes, hes0], hnf⟩

/-- C8.  In every run of `init` the effects are ordered: the steps appear in
the order establish connection, materialize schema, construct store facades,
provision object store, construct orchestration clients; every schema call
comes after a successful `sql.Open`, a successful create-database statement and
a successful `gorm.Open`; every store facade is constructed after `AutoMigrate`
and the foreign key declaration both succeeded; the object store handle is
constructed after `createMinioBucket` completed.  In a run that returns, all
five steps occur and the `objectStore` field holds the handle. -/
theorem init_ordered (env : Env) (c : ClientManager) (w : World) :
    Ordered (newEvents (ClientManager.init env c) w) ∧
    ∀ c', (ClientManager.init env c w).1 = Outcome.ret c' →
      (∀ j ∈ [1, 2, 3, 4, 5], ∃ e ∈ newEvents (ClientManager.init env c) w, phase e = some j) ∧
      c'.ObjectStore.isSome = true := by
  obtain ⟨⟨j, hj⟩, hret⟩ := init_stage env c w
  refine ⟨hj.1, fun c' hout => ⟨?_, (returns_init env c w c' hout).2.2.2.2.2.2.1⟩⟩
  obtain ⟨_, _, h2, h4, h5, _, h8, h9⟩ := hret (by rw [hout]; rfl)
  intro j hjmem
  simp only [List.mem_cons, List.mem_singleton, List.not_mem_nil, or_false] at hjmem
  rcases hjmem with rfl | rfl | rfl | rfl | rfl
  · obtain ⟨y, hy, hp⟩ := (h2 (by decide)).1
    refine ⟨y, hy, ?_⟩
    cases y <;> first | rfl | simp [isOpened] at hp
  · obtain ⟨y, hy, hp⟩ := (h4 (by decide)).1
    refine ⟨y, hy, ?_⟩
    simp only [isMigrated, decide_eq_true_eq] at hp
    rw [hp]
    rfl
  · obtain ⟨y, hy, hp⟩ := h5 (by decide)
    exact ⟨y, hy, phase_of_isFacade hp⟩
  · obtain ⟨y, hy, hp⟩ := h8 (by decide)
    exact ⟨y, hy, phase_of_isHandle hp⟩
  · obtain ⟨y, hy, hp⟩ := h9 (by decide)
    refine ⟨y, hy, ?_⟩
    cases y <;> first | rfl | simp [isClient] at hp

/-- With every dependency available at once the bootstrap returns a manager. -/
theorem newClientManager_goodEnv_returns :
    (newClientManager goodEnv World.start).1.returned = true := by
  decide

/-! ## The retrier -/

theorem ExponentialBackOff.le_next (b : ExponentialBackOff) (interval : Nat) :
    interval ≤ b.next interval := by
  unfold ExponentialBackOff.next
  calc interval = interval * b.MultiplierDen / b.MultiplierDen :=
        (Nat.mul_div_cancel interval b.den_pos).symm
    _ ≤ interval * b.MultiplierNum / b.MultiplierDen :=
        Nat.div_le_div_right (Nat.mul_le_mul_left interval b.increasing)

theorem ExponentialBackOff.le_of_mem_intervals (b : ExponentialBackOff) :
    ∀ (n interval x : Nat), x ∈ b.intervals n interval → interval ≤ x := by
  intro n
  induction n with
  | zero =>
    intro interval x hx
    simp [ExponentialBackOff.intervals] at hx
  | succ n ih =>
    intro interval x hx
    simp only [ExponentialBackOff.intervals, List.mem_cons] at hx
    rcases hx with hx | hx
    · exact le_of_eq hx.symm
    · exact le_trans (b.le_next interval) (ih _ _ hx)

/-- The delays of a policy never decrease. -/
theorem ExponentialBackOff.intervals_sorted (b : ExponentialBackOff) :
    ∀ (n interval : Nat), (b.intervals n interval).Pairwise (fun x y => x ≤ y) := by
  intro n
  induction n with
  | zero =>
    intro interval
    simp [ExponentialBackOff.intervals]
  | succ n ih =>
    intro interval
    simp only [ExponentialBackOff.intervals, List.pairwise_cons]
    exact ⟨fun x hx => le_trans (b.le_next interval) (b.le_of_mem_intervals _ _ _ hx), ih _⟩

theorem sleeps_map_Sleep (ds : List Nat) : sleeps (ds.map Event.Sleep) = ds := by
  induction ds with
  | nil => rfl
  | cons d ds ih => simp [sleeps, ih]

/-- The retry loop on an operation whose next `j` invocations fail and whose
invocation after those succeeds, when the budget admits `j` delays: success
after `j + 1` invocations, with the first `j` delays of the policy slept. -/
theorem RetryLoop_scripted_success (b : ExponentialBackOff) (outcomes : Nat → Option GoError) :
    ∀ (j budget interval n : Nat) (w : World),
      (∀ i, i < j → outcomes (n + i) ≠ none) → outcomes (n + j) = none → j ≤ budget →
      RetryLoop b (scriptedOperation outcomes) budget interval n w =
        (Outcome.ret (n + j + 1, none),
          { w with trace := w.trace ++ (b.intervals j interval).map Event.Sleep }) := by
  intro j
  induction j with
  | zero =>
    intro budget interval n w _ hsucc _
    simp only [Nat.add_zero] at hsucc
    cases budget with
    | zero => simp [RetryLoop, scriptedOperation, hsucc, ExponentialBackOff.intervals]
    | succ budget => simp [RetryLoop, scriptedOperation, hsucc, ExponentialBackOff.intervals]
  | succ j ih =>
    intro budget interval n w hfail hsucc hle
    cases budget with
    | zero => omega
    | succ budget =>
      have h0 : outcomes n ≠ none := by simpa using hfail 0 (Nat.succ_pos j)
      have hrec := ih budget (b.next interval) (n + 1)
        { w with trace := w.trace ++ [Event.Sleep interval] }
        (fun i hi => by
          have := hfail (i + 1) (Nat.succ_lt_succ hi)
          rwa [show n + (i + 1) = n + 1 + i by omega] at this)
        (by rwa [show n + (j + 1) = n + 1 + j by omega] at hsucc)
        (Nat.le_of_succ_le_succ hle)
      simp only [RetryLoop, bind_run, scriptedOperation, pure_run, h0, if_false, emit_run]
      rw [hrec]
      simp [ExponentialBackOff.intervals, show n + 1 + j + 1 = n + (j + 1) + 1 by omega]

/-- The retry loop on an operation whose next `budget + 1` invocations all fail:
the last error is returned after `budget + 1` invocations, with `budget` delays
slept. -/
theorem RetryLoop_scripted_stop (b : ExponentialBackOff) (outcomes : Nat → Option GoError) :
    ∀ (budget interval n : Nat) (w : World),
      (∀ i, i ≤ budget → outcomes (n + i) ≠ none) →
      RetryLoop b (scriptedOperation outcomes) budget interval n w =
        (Outcome.ret (n + budget + 1, outcomes (n + budget)),
          { w with trace := w.trace ++ (b.intervals budget interval).map Event.Sleep }) := by
  intro budget
  induction budget with
  | zero =>
    intro interval n w _
    simp [RetryLoop, scriptedOperation, ExponentialBackOff.intervals]
  | succ budget ih =>
    intro interval n w hfail
    have h0 : outcomes n ≠ none := by simpa using hfail 0 (Nat.zero_le _)
    have hrec := ih (b.next interval) (n + 1)
      { w with trace := w.trace ++ [Event.Sleep interval] }
      (fun i hi => by
        have := hfail (i + 1) (Nat.succ_le_succ hi)
        rwa [show n + (i + 1) = n + 1 + i by omega] at this)
    simp only [RetryLoop, bind_run, scriptedOperation, pure_run, h0, if_false, emit_run]
    rw [hrec]
    simp [ExponentialBackOff.intervals, show n + 1 + budget = n + (budget + 1) by omega]

/-- C9, as stated, fails: under the policy configured as in `initMysql`, with an
elapsed time budget that admits one delay, an operation that fails on its first
two invocations and would succeed on its third is invoked twice only, and the
retrier returns its error. -/
theorem Retry_stops_before_success :
    failsTwice 0 ≠ none ∧ failsTwice 1 ≠ none ∧ failsTwice 2 = none ∧
    goodEnv.retryBudget 10 World.start.trace = 1 ∧
    Retry goodEnv (scriptedOperation failsTwice)
        { NewExponentialBackOff goodEnv with MaxElapsedTime := 10 } 0 World.start =
      (Outcome.ret (2, some "connection refused"),
        { trace := [Event.Sleep 500], buckets := [] }) := by
  decide

/-- C9, amended.  For every retry policy, the one configured in `initMysql`
included, and every operation that fails on its first `k - 1` invocations and
succeeds on its `k`-th, `k ≥ 1`: if the elapsed time budget admits at least
`k - 1` delays, the retrier returns success after exactly `k` invocations; if
it admits fewer, it returns the error of the last invocation it made, after
one invocation more than the delays admitted; in every case the delays slept
between consecutive attempts never decrease. -/
theorem Retry_scripted (env : Env) (b : ExponentialBackOff) (outcomes : Nat → Option GoError)
    (k : Nat) (w : World) (hk : 1 ≤ k) (hfail : ∀ i, i + 1 < k → outcomes i ≠ none)
    (hsucc : outcomes (k - 1) = none) :
    (k - 1 ≤ env.retryBudget b.MaxElapsedTime w.trace →
      Retry env (scriptedOperation outcomes) b 0 w =
        (Outcome.ret (k, none),
          { w with trace := w.trace ++
              (b.intervals (k - 1) b.InitialInterval).map Event.Sleep })) ∧
    (env.retryBudget b.MaxElapsedTime w.trace < k - 1 →
      outcomes (env.retryBudget b.MaxElapsedTime w.trace) ≠ none ∧
      Retry env (scriptedOperation outcomes) b 0 w =
        (Outcome.ret (env.retryBudget b.MaxElapsedTime w.trace + 1,
            outcomes (env.retryBudget b.MaxElapsedTime w.trace)),
          { w with trace := w.trace ++
              (b.intervals (env.retryBudget b.MaxElapsedTime w.trace)
                b.InitialInterval).map Event.Sleep })) ∧
    (sleeps (newEvents (Retry env (scriptedOperation outcomes) b 0) w)).Pairwise
      (fun x y => x ≤ y) := by
  have hrun : Retry env (scriptedOperation outcomes) b 0 w =
      RetryLoop b (scriptedOperation outcomes) (env.retryBudget b.MaxElapsedTime w.trace)
        b.InitialInterval 0 w := by
    simp [Retry]
  have h1 : k - 1 ≤ env.retryBudget b.MaxElapsedTime w.trace →
      Retry env (scriptedOperation outcomes) b 0 w =
        (Outcome.ret (k, none),
          { w with trace := w.trace ++
              (b.intervals (k - 1) b.InitialInterval).map Event.Sleep }) := by
    intro hle
    rw [hrun, RetryLoop_scripted_success b outcomes (k - 1) _ _ 0 w
      (fun i hi => by
        have := hfail i (by omega)
        simpa using this)
      (by simpa using hsucc) hle]
    simp [show k - 1 + 1 = k by omega]
  have h2 : env.retryBudget b.MaxElapsedTime w.trace < k - 1 →
      Retry env (scriptedOperation outcomes) b 0 w =
        (Outcome.ret (env.retryBudget b.MaxElapsedTime w.trace + 1,
            outcomes (env.retryBudget b.MaxElapsedTime w.trace)),
          { w with trace := w.trace ++
              (b.intervals (env.retryBudget b.MaxElapsedTime w.trace)
                b.InitialInterval).map Event.Sleep }) := by
    intro hlt
    rw [hrun, RetryLoop_scripted_stop b outcomes _ _ 0 w
      (fun i hi => by
        have := hfail i (by omega)
        simpa using this)]
    simp
  refine ⟨h1, fun hlt => ⟨hfail _ (by omega), h2 hlt⟩, ?_⟩
  by_cases hle : k - 1 ≤ env.retryBudget b.MaxElapsedTime w.trace
  · rw [newEvents, h1 hle]
    simp only [List.drop_left, sleeps_map_Sleep]
    exact b.intervals_sorted _ _
  · rw [newEvents, h2 (Nat.lt_of_not_le hle)]
    simp only [List.drop_left, sleeps_map_Sleep]
    exact b.intervals_sorted _ _

theorem Retry_scripted_witness :
    (1 ≤ 2 ∧ (∀ i, i + 1 < 2 → failsOnce i ≠ none) ∧ failsOnce (2 - 1) = none) ∧
    2 - 1 ≤ goodEnv.retryBudget goodEnv.backOff.MaxElapsedTime World.start.trace ∧
    Retry goodEnv (scriptedOperation failsOnce) goodEnv.backOff 0 World.start =
      (Outcome.ret (2, none), { trace := [Event.Sleep 500], buckets := [] }) :=
  ⟨⟨by decide, fun i hi => by
      have h0 : i = 0 := by omega
      subst h0
      decide, by decide⟩,
    by decide,
    (Retry_scripted goodEnv goodEnv.backOff failsOnce 2 World.start (by decide)
      (fun i hi => by
        have h0 : i = 0 := by omega
        subst h0
        decide) (by decide)).1 (by decide)⟩

end Apiserver
